import Mathlib

/-!
# nvgpu: PMU perfmon client and TU104 runlist submitter

A shallow embedding of
`drivers/gpu/nvgpu/common/pmu/perfmon/pmu_perfmon.c`,
`drivers/gpu/nvgpu/common/fifo/runlist_tu104.c` and the queue macros of
`drivers/gpu/nvgpu/include/nvgpu/pmuif/gpmuif_cmn.h`.

Conventions.
* C unsigned integers are `Nat`; every operation that can wrap is written with an
  explicit `% 2 ^ w`. `int` status codes are `Int`.
* State that the C code reaches through pointers is passed and returned explicitly.
* Results of calls that leave these files (firmware replies, DMEM copies, HAL
  operations, allocators, timers, register reads) are supplied by an environment
  record, one answer per call site.
* Constants and register/field encoders whose headers are not among the sources are
  parameters.
-/

namespace Nvgpu

/-! ## Machine integers and errno values -/

/-- Truncation to `u32`. -/
def u32 (n : Nat) : Nat := n % 2 ^ 32

/-- Truncation to `u64`. -/
def u64 (n : Nat) : Nat := n % 2 ^ 64

/-- Largest `u8`. -/
def U8_MAX : Nat := 255

/-- Largest `u32`. -/
def U32_MAX : Nat := 4294967295

/-- Linux errno value `ENOMEM`. -/
def ENOMEM : Int := 12

/-- Linux errno value `EINVAL`. -/
def EINVAL : Int := 22

/-- Linux errno value `ETIMEDOUT`. -/
def ETIMEDOUT : Int := 110

/-! ## Perfmon state -/

/-- The per-device perfmon state `struct nvgpu_pmu_perfmon`. The struct declaration
(`nvgpu/pmu/pmu_perfmon.h`) is not among the sources; the fields are the ones
`pmu_perfmon.c` reads and writes, with the widths its accessors fix:
`nvgpu_pmu_perfmon_get_events_count` returns `u64`, `nvgpu_pmu_perfmon_get_load_avg`
and `nvgpu_pmu_load_norm` deliver `u32`, and `sample_buffer` is assigned from a
`(u32)` cast. -/
structure nvgpu_pmu_perfmon where
  /-- Cumulative count of increase/decrease events (`u64`). -/
  perfmon_events_cnt : Nat
  /-- Completion flag of the QUERY RPC (`u32`). -/
  perfmon_query : Nat
  /-- Per domain group state identifiers. -/
  perfmon_state_id : List Nat
  /-- DMEM offset of the firmware sample buffer, 0 when not allocated (`u32`). -/
  sample_buffer : Nat
  /-- Decimated sample (`u32`). -/
  load_shadow : Nat
  /-- Smoothed average (`u32`). -/
  load_avg : Nat
  /-- Last raw sample (`u32`). -/
  load : Nat
  /-- Set once the firmware acknowledged INIT. -/
  perfmon_ready : Bool
  /-- Continuous sampling requested. -/
  perfmon_sampling_enabled : Bool
deriving DecidableEq, Repr

/-- The state `nvgpu_kzalloc` hands out: every field zero. -/
def nvgpu_pmu_perfmon.zeroed : nvgpu_pmu_perfmon :=
  { perfmon_events_cnt := 0, perfmon_query := 0, perfmon_state_id := [],
    sample_buffer := 0, load_shadow := 0, load_avg := 0, load := 0,
    perfmon_ready := false, perfmon_sampling_enabled := false }

/-- Every integer field holds a value of its C type. -/
def nvgpu_pmu_perfmon.wf (p : nvgpu_pmu_perfmon) : Prop :=
  p.perfmon_events_cnt < 2 ^ 64 ∧ p.perfmon_query < 2 ^ 32 ∧ p.sample_buffer < 2 ^ 32 ∧
  p.load_shadow < 2 ^ 32 ∧ p.load_avg < 2 ^ 32 ∧ p.load < 2 ^ 32

instance (p : nvgpu_pmu_perfmon) : Decidable p.wf := by
  unfold nvgpu_pmu_perfmon.wf
  infer_instance

/-! ## RPC reply handler -/

/-- The function identifiers `NV_PMU_RPC_ID_PERFMON_T18X_*`; their header is not among
the sources, so they are parameters. -/
structure perfmon_rpc_ids where
  /-- Value of `NV_PMU_RPC_ID_PERFMON_T18X_INIT`. -/
  INIT : Nat
  /-- Value of `NV_PMU_RPC_ID_PERFMON_T18X_START`. -/
  START : Nat
  /-- Value of `NV_PMU_RPC_ID_PERFMON_T18X_STOP`. -/
  STOP : Nat
  /-- Value of `NV_PMU_RPC_ID_PERFMON_T18X_QUERY`. -/
  QUERY : Nat
deriving DecidableEq, Repr

/-- The four identifiers are case labels of one `switch`, hence pairwise distinct. -/
def perfmon_rpc_ids.distinct (ids : perfmon_rpc_ids) : Prop :=
  ids.INIT ≠ ids.START ∧ ids.INIT ≠ ids.STOP ∧ ids.INIT ≠ ids.QUERY ∧
  ids.START ≠ ids.STOP ∧ ids.START ≠ ids.QUERY ∧ ids.STOP ≠ ids.QUERY

instance (ids : perfmon_rpc_ids) : Decidable ids.distinct := by
  unfold perfmon_rpc_ids.distinct
  infer_instance

/-- Embedding of `nvgpu_pmu_perfmon_rpc_handler`: `function` is `rpc->function` and
`sample0` is `rpc_param->sample_buffer[0]` of the reply buffer. The function is `void`;
its only effect is on the perfmon state. -/
def nvgpu_pmu_perfmon_rpc_handler (ids : perfmon_rpc_ids) (p : nvgpu_pmu_perfmon)
    (function sample0 : Nat) : nvgpu_pmu_perfmon :=
  if function = ids.INIT then { p with perfmon_ready := true }
  else if function = ids.START then p
  else if function = ids.STOP then p
  else if function = ids.QUERY then { p with load := sample0, perfmon_query := 1 }
  else p

/-! ## Load sampling -/

/-- Answers of the environment to one call of `nvgpu_pmu_load_update`. -/
structure load_env where
  /-- Whether `g->ops.pmu.pmu_perfmon_get_samples_rpc != NULL`. -/
  has_get_samples_rpc : Bool
  /-- Value of `nvgpu_is_enabled(g, NVGPU_PMU_PERFMON)`. -/
  perfmon_enabled : Bool
  /-- Status that `PMU_RPC_EXECUTE` stores for the QUERY RPC. -/
  rpc_status : Int
  /-- The `sample_buffer[0]` of the QUERY reply, when the reply is dispatched before
  `pmu_wait_message_cond` gives up; `none` when no reply arrives. -/
  query_reply : Option Nat
  /-- Status of `nvgpu_falcon_copy_from_dmem`. -/
  dmem_err : Int
  /-- The two bytes copied from DMEM, as the 16-bit word they form in the zero-initialised
  `u32` local `load` (little-endian host). -/
  dmem_word : Nat
deriving DecidableEq, Repr

/-- Embedding of `nvgpu_pmu_perfmon_get_samples_rpc`. The reply, when it arrives, is
dispatched to `nvgpu_pmu_perfmon_rpc_handler` with the QUERY identifier while the caller
waits for `perfmon_query == 1`. -/
def nvgpu_pmu_perfmon_get_samples_rpc (ids : perfmon_rpc_ids) (env : load_env)
    (p : nvgpu_pmu_perfmon) : Int × nvgpu_pmu_perfmon :=
  if !env.perfmon_enabled then (0, p)
  else
    let p1 := { p with perfmon_query := 0 }
    let p2 := match env.query_reply with
      | some s => nvgpu_pmu_perfmon_rpc_handler ids p1 ids.QUERY s
      | none => p1
    (env.rpc_status, p2)

/-- Embedding of `nvgpu_pmu_load_update`; returns the `int` result and the new state. -/
def nvgpu_pmu_load_update (ids : perfmon_rpc_ids) (env : load_env)
    (p : nvgpu_pmu_perfmon) : Int × nvgpu_pmu_perfmon :=
  if !p.perfmon_ready then
    (0, { p with load_shadow := 0, load := 0 })
  else if env.has_get_samples_rpc then
    -- the status of the RPC is discarded; `err` keeps its initial 0
    let p1 := (nvgpu_pmu_perfmon_get_samples_rpc ids env p).2
    let load := p1.load
    let shadow := load / 10
    (0, { p1 with load_shadow := shadow, load_avg := u32 (u32 (9 * p1.load_avg) + shadow) / 10 })
  else if env.dmem_err ≠ 0 then
    (env.dmem_err, p)
  else
    let load := env.dmem_word % 2 ^ 16
    let shadow := load / 10
    (env.dmem_err,
      { p with load_shadow := shadow, load_avg := u32 (u32 (9 * p.load_avg) + shadow) / 10 })

/-! ## Busy-cycle normalisation -/

/-- Answers of the environment to one call of `nvgpu_pmu_busy_cycles_norm`. -/
structure busy_env where
  /-- Value of `g->power_on`. -/
  power_on : Bool
  /-- Whether `g->ops.pmu.pmu_read_idle_counter != NULL`. -/
  has_read_idle_counter : Bool
  /-- Whether `g->ops.pmu.pmu_reset_idle_counter != NULL`. -/
  has_reset_idle_counter : Bool
  /-- Whether `g->ops.pmu.pmu_read_idle_intr_status != NULL`. -/
  has_read_idle_intr_status : Bool
  /-- Whether `g->ops.pmu.pmu_clear_idle_intr_status != NULL`. -/
  has_clear_idle_intr_status : Bool
  /-- Value stored in the `u64` local `busy_cycles` (idle counter 4). -/
  busy_cycles : Nat
  /-- Value stored in the `u64` local `total_cycles` (idle counter 0). -/
  total_cycles : Nat
  /-- Value stored in the `u32` local `intr_status`. -/
  intr_status : Nat
deriving DecidableEq, Repr

/-- Calls that `nvgpu_pmu_busy_cycles_norm` makes on the device. -/
inductive busy_action where
  | gk20a_busy_noresume
  | pmu_read_idle_counter (counter_id : Nat)
  | pmu_read_idle_intr_status
  | pmu_reset_idle_counter (counter_id : Nat)
  | pmu_clear_idle_intr_status
  | gk20a_idle_nosuspend
deriving DecidableEq, Repr

/-- Result of `nvgpu_pmu_busy_cycles_norm`: the `int` returned, the value stored through
`norm`, and the device calls in program order. -/
structure busy_result where
  /-- The returned `int`. -/
  ret : Int
  /-- The value written to `*norm`. -/
  norm : Nat
  /-- Device calls, oldest first. -/
  actions : List busy_action
deriving DecidableEq, Repr

/-- Embedding of `nvgpu_pmu_busy_cycles_norm`. `NORM_MAX` is the value of the macro
`PMU_BUSY_CYCLES_NORM_MAX`, whose header is not among the sources. -/
def nvgpu_pmu_busy_cycles_norm (NORM_MAX : Nat) (env : busy_env) : busy_result :=
  if !env.power_on then
    { ret := 0, norm := 0,
      actions := [busy_action.gk20a_busy_noresume, busy_action.gk20a_idle_nosuspend] }
  else if !env.has_read_idle_counter || !env.has_reset_idle_counter ||
      !env.has_read_idle_intr_status || !env.has_clear_idle_intr_status then
    { ret := 0, norm := NORM_MAX,
      actions := [busy_action.gk20a_busy_noresume, busy_action.gk20a_idle_nosuspend] }
  else
    let reads := [busy_action.gk20a_busy_noresume, busy_action.pmu_read_idle_counter 4,
      busy_action.pmu_read_idle_counter 0, busy_action.pmu_read_idle_intr_status,
      busy_action.pmu_reset_idle_counter 4, busy_action.pmu_reset_idle_counter 0]
    if env.intr_status ≠ 0 then
      { ret := 0, norm := NORM_MAX,
        actions := reads ++ [busy_action.pmu_clear_idle_intr_status,
          busy_action.gk20a_idle_nosuspend] }
    else if env.total_cycles = 0 ∨ env.busy_cycles > env.total_cycles then
      { ret := 0, norm := NORM_MAX, actions := reads ++ [busy_action.gk20a_idle_nosuspend] }
    else
      { ret := 0, norm := u32 (u64 (env.busy_cycles * NORM_MAX) / env.total_cycles),
        actions := reads ++ [busy_action.gk20a_idle_nosuspend] }

/-! ## TU104 runlist submission -/

/-- Registers of the TU104 FIFO unit that `runlist_tu104.c` touches, named by the
`hw_fifo_tu104.h` accessor that yields their address (the header is not among the
sources; the registers of one runlist and of different runlists are distinct). -/
inductive fifo_reg where
  | fifo_runlist_base_lo_r (i : Nat)
  | fifo_runlist_base_hi_r (i : Nat)
  | fifo_runlist_submit_r (i : Nat)
  | fifo_runlist_submit_info_r (i : Nat)
deriving DecidableEq, Repr

/-- Field encoders and constants of `hw_fifo_tu104.h`, which is not among the sources. -/
structure hw_fifo_tu104 where
  /-- Value of `fifo_runlist_base_lo_ptr_align_shift_v()`. -/
  fifo_runlist_base_lo_ptr_align_shift_v : Nat
  /-- The encoder `fifo_runlist_base_lo_ptr_lo_f`. -/
  fifo_runlist_base_lo_ptr_lo_f : Nat → Nat
  /-- Value of `fifo_runlist_base_lo_target_sys_mem_ncoh_f()`. -/
  fifo_runlist_base_lo_target_sys_mem_ncoh_f : Nat
  /-- Value of `fifo_runlist_base_lo_target_sys_mem_coh_f()`. -/
  fifo_runlist_base_lo_target_sys_mem_coh_f : Nat
  /-- Value of `fifo_runlist_base_lo_target_vid_mem_f()`. -/
  fifo_runlist_base_lo_target_vid_mem_f : Nat
  /-- The encoder `fifo_runlist_base_hi_ptr_hi_f`. -/
  fifo_runlist_base_hi_ptr_hi_f : Nat → Nat
  /-- The encoder `fifo_runlist_submit_length_f`. -/
  fifo_runlist_submit_length_f : Nat → Nat
  /-- Value of `fifo_runlist_submit_info_pending_true_f()`. -/
  fifo_runlist_submit_info_pending_true_f : Nat

/-- A runlist buffer `struct nvgpu_mem`, reduced to what `hw_submit` asks of it. -/
structure nvgpu_mem where
  /-- Result of `nvgpu_mem_get_addr(g, mem)` (`u64`). -/
  addr : Nat
  /-- Result of `nvgpu_aperture_mask(g, mem, ncoh, coh, vid)` for the three masks. -/
  aperture_mask : Nat → Nat → Nat → Nat

/-- The part of `struct gk20a` seen by the runlist code: the buffers
`g->fifo.runlist_info[runlist_id].mem[buffer_index]`, the register file, and the log of
`nvgpu_writel` calls (oldest first). -/
structure gk20a_fifo where
  /-- Buffer `mem[buffer_index]` of runlist `runlist_id`. -/
  runlist_mem : Nat → Nat → nvgpu_mem
  /-- Current register contents. -/
  regs : fifo_reg → Nat
  /-- Every `nvgpu_writel(g, r, v)` so far as `(r, v)`, oldest first. -/
  writes : List (fifo_reg × Nat)

/-- The low 32 bits of a `u64`. -/
def u64_lo32 (n : Nat) : Nat := n % 2 ^ 32

/-- The high 32 bits of a `u64`. -/
def u64_hi32 (n : Nat) : Nat := (n / 2 ^ 32) % 2 ^ 32

/-- Embedding of `nvgpu_writel(g, r, v)`. -/
def nvgpu_writel (g : gk20a_fifo) (r : fifo_reg) (v : Nat) : gk20a_fifo :=
  { g with regs := fun x => if x = r then v else g.regs x, writes := g.writes ++ [(r, v)] }

/-- Embedding of `tu104_runlist_hw_submit`. -/
def tu104_runlist_hw_submit (hw : hw_fifo_tu104) (g : gk20a_fifo)
    (runlist_id count buffer_index : Nat) : gk20a_fifo :=
  let mem := g.runlist_mem runlist_id buffer_index
  let runlist_iova := mem.addr
  let runlist_iova_lo := u64_lo32 runlist_iova >>> hw.fifo_runlist_base_lo_ptr_align_shift_v
  let runlist_iova_hi := u64_hi32 runlist_iova
  let g1 :=
    if count ≠ 0 then
      let g0 := nvgpu_writel g (fifo_reg.fifo_runlist_base_lo_r runlist_id)
        (hw.fifo_runlist_base_lo_ptr_lo_f runlist_iova_lo |||
          mem.aperture_mask hw.fifo_runlist_base_lo_target_sys_mem_ncoh_f
            hw.fifo_runlist_base_lo_target_sys_mem_coh_f
            hw.fifo_runlist_base_lo_target_vid_mem_f)
      nvgpu_writel g0 (fifo_reg.fifo_runlist_base_hi_r runlist_id)
        (hw.fifo_runlist_base_hi_ptr_hi_f runlist_iova_hi)
    else g
  nvgpu_writel g1 (fifo_reg.fifo_runlist_submit_r runlist_id)
    (hw.fifo_runlist_submit_length_f count)

/-- Answers of the environment to one call of `tu104_runlist_wait_pending`. -/
structure wait_env where
  /-- Result of `nvgpu_timeout_init`. -/
  timeout_init_ret : Int
  /-- Value returned by the `k`-th `nvgpu_readl` of the submit-info register. -/
  submit_info : Nat → Nat
  /-- Value returned by the `k`-th `nvgpu_timeout_expired` call. -/
  timeout_expired : Nat → Int

/-- Calls that `tu104_runlist_wait_pending` makes after the timeout is initialised. -/
inductive wait_action where
  | nvgpu_readl (r : fifo_reg)
  | nvgpu_usleep_range (min_us max_us : Nat)
  | nvgpu_timeout_expired
deriving DecidableEq, Repr

/-- The loop of `tu104_runlist_wait_pending` from iteration `k` on with the given
`delay`; `none` when `fuel` iterations do not reach an exit. `DELAY_MAX` is
`GR_IDLE_CHECK_MAX`. -/
def tu104_runlist_wait_pending_loop (hw : hw_fifo_tu104) (DELAY_MAX : Nat) (env : wait_env)
    (runlist_id : Nat) : (fuel k delay : Nat) → Option (Int × List wait_action)
  | 0, _, _ => none
  | fuel + 1, k, delay =>
    if env.submit_info k &&& hw.fifo_runlist_submit_info_pending_true_f = 0 then
      some (0, [wait_action.nvgpu_readl (fifo_reg.fifo_runlist_submit_info_r runlist_id)])
    else
      let step := [wait_action.nvgpu_readl (fifo_reg.fifo_runlist_submit_info_r runlist_id),
        wait_action.nvgpu_usleep_range delay (u32 (delay * 2)),
        wait_action.nvgpu_timeout_expired]
      if env.timeout_expired k = 0 then
        match tu104_runlist_wait_pending_loop hw DELAY_MAX env runlist_id fuel (k + 1)
            (min (u32 (delay <<< 1)) DELAY_MAX) with
        | none => none
        | some (ret, rest) => some (ret, step ++ rest)
      else some (-ETIMEDOUT, step)

/-- Embedding of `tu104_runlist_wait_pending`: the `int` returned and the calls made after
`nvgpu_timeout_init`, oldest first. `DELAY_DEFAULT` and `DELAY_MAX` are the macros
`GR_IDLE_CHECK_DEFAULT` and `GR_IDLE_CHECK_MAX`, whose header is not among the sources. -/
def tu104_runlist_wait_pending (hw : hw_fifo_tu104) (DELAY_DEFAULT DELAY_MAX : Nat)
    (env : wait_env) (runlist_id fuel : Nat) : Option (Int × List wait_action) :=
  if env.timeout_init_ret ≠ 0 then some (env.timeout_init_ret, [])
  else tu104_runlist_wait_pending_loop hw DELAY_MAX env runlist_id fuel 0 DELAY_DEFAULT

/-! ## Queue identifiers (`gpmuif_cmn.h`) -/

/-- Value of `PMU_COMMAND_QUEUE_HPQ`. -/
def PMU_COMMAND_QUEUE_HPQ : Nat := 0

/-- Value of `PMU_COMMAND_QUEUE_LPQ`. -/
def PMU_COMMAND_QUEUE_LPQ : Nat := 1

/-- Value of `PMU_COMMAND_QUEUE_BIOS`. -/
def PMU_COMMAND_QUEUE_BIOS : Nat := 2

/-- Value of `PMU_COMMAND_QUEUE_SMI`. -/
def PMU_COMMAND_QUEUE_SMI : Nat := 3

/-- Value of `PMU_MESSAGE_QUEUE`. -/
def PMU_MESSAGE_QUEUE : Nat := 4

/-- Value of `PMU_QUEUE_COUNT`. -/
def PMU_QUEUE_COUNT : Nat := 5

/-- The macro `PMU_IS_COMMAND_QUEUE(id)`. -/
def PMU_IS_COMMAND_QUEUE (id : Nat) : Bool := decide (id < PMU_MESSAGE_QUEUE)

/-- The macro `PMU_IS_SW_COMMAND_QUEUE(id)`. -/
def PMU_IS_SW_COMMAND_QUEUE (id : Nat) : Bool :=
  decide (id = PMU_COMMAND_QUEUE_HPQ) || decide (id = PMU_COMMAND_QUEUE_LPQ)

/-- The macro `PMU_IS_MESSAGE_QUEUE(id)`. -/
def PMU_IS_MESSAGE_QUEUE (id : Nat) : Bool := decide (id = PMU_MESSAGE_QUEUE)

/-! ## Perfmon commands -/

/-- Constants used by the perfmon client whose headers are not among the sources. -/
structure perfmon_consts where
  /-- Value of `GK20A_GPUID_GK20A`. -/
  GK20A_GPUID_GK20A : Nat
  /-- Value of `GK20A_GPUID_GM20B`. -/
  GK20A_GPUID_GM20B : Nat
  /-- Value of `GK20A_GPUID_GM20B_B`. -/
  GK20A_GPUID_GM20B_B : Nat
  /-- Value of `NVGPU_GPUID_GP10B`. -/
  NVGPU_GPUID_GP10B : Nat
  /-- Value of `NVGPU_GPUID_GV11B`. -/
  NVGPU_GPUID_GV11B : Nat
  /-- Value of `PMU_UNIT_PERFMON`. -/
  PMU_UNIT_PERFMON : Nat
  /-- Value of `PMU_UNIT_PERFMON_T18X`. -/
  PMU_UNIT_PERFMON_T18X : Nat
  /-- Value of `PMU_UNIT_INVALID`. -/
  PMU_UNIT_INVALID : Nat
  /-- Value of `PMU_CMD_HDR_SIZE`. -/
  PMU_CMD_HDR_SIZE : Nat
  /-- Value of `PMU_PERFMON_CMD_ID_INIT`. -/
  PMU_PERFMON_CMD_ID_INIT : Nat
  /-- Value of `PMU_PERFMON_CMD_ID_START`. -/
  PMU_PERFMON_CMD_ID_START : Nat
  /-- Value of `PMU_PERFMON_CMD_ID_STOP`. -/
  PMU_PERFMON_CMD_ID_STOP : Nat
  /-- Value of `PMU_DOMAIN_GROUP_PSTATE`. -/
  PMU_DOMAIN_GROUP_PSTATE : Nat
  /-- Value of `PMU_PERFMON_FLAG_ENABLE_INCREASE`. -/
  PMU_PERFMON_FLAG_ENABLE_INCREASE : Nat
  /-- Value of `PMU_PERFMON_FLAG_ENABLE_DECREASE`. -/
  PMU_PERFMON_FLAG_ENABLE_DECREASE : Nat
  /-- Value of `PMU_PERFMON_FLAG_CLEAR_PREV`. -/
  PMU_PERFMON_FLAG_CLEAR_PREV : Nat
  /-- Value of `PMU_PERFMON_MSG_ID_INCREASE_EVENT`. -/
  PMU_PERFMON_MSG_ID_INCREASE_EVENT : Nat
  /-- Value of `PMU_PERFMON_MSG_ID_DECREASE_EVENT`. -/
  PMU_PERFMON_MSG_ID_DECREASE_EVENT : Nat
  /-- Value of `PMU_PERFMON_MSG_ID_INIT_EVENT`. -/
  PMU_PERFMON_MSG_ID_INIT_EVENT : Nat
  /-- Values of `NV_PMU_RPC_ID_PERFMON_T18X_*`. -/
  rpc : perfmon_rpc_ids
deriving DecidableEq, Repr

/-- Embedding of `get_perfmon_id`; `gpu_arch` and `gpu_impl` are `g->params.gpu_arch`
and `g->params.gpu_impl`, added as `u32`. The default case also logs an error and warns. -/
def get_perfmon_id (c : perfmon_consts) (gpu_arch gpu_impl : Nat) : Nat :=
  let ver := u32 (gpu_arch + gpu_impl)
  if ver = c.GK20A_GPUID_GK20A ∨ ver = c.GK20A_GPUID_GM20B ∨ ver = c.GK20A_GPUID_GM20B_B then
    c.PMU_UNIT_PERFMON
  else if ver = c.NVGPU_GPUID_GP10B ∨ ver = c.NVGPU_GPUID_GV11B then
    c.PMU_UNIT_PERFMON_T18X
  else
    c.PMU_UNIT_INVALID

/-- Embedding of `nvgpu_pmu_initialize_perfmon`. `pmu_perfmon` is the pointer
`pmu->pmu_perfmon` (`none` for `NULL`), `kzalloc_ok` tells whether `nvgpu_kzalloc` would
succeed. Returns the `int` result, the new pointer and the number of `nvgpu_kzalloc`
calls made. -/
def nvgpu_pmu_initialize_perfmon (kzalloc_ok : Bool) (pmu_perfmon : Option nvgpu_pmu_perfmon) :
    Int × Option nvgpu_pmu_perfmon × Nat :=
  match pmu_perfmon with
  | some p => (0, some p, 0)
  | none =>
    if kzalloc_ok then (0, some nvgpu_pmu_perfmon.zeroed, 1)
    else (-ENOMEM, none, 1)

/-- Fields of the perfmon command union that the version layer (`pv->perfmon_*_set_*`)
is asked to fill, and of the RPC structs that the `_rpc` variants fill. -/
inductive perfmon_cmd_field where
  | cmd_type | sample_buffer | dec_cnt | base_cnt_id | samp_period_us | num_cnt | mov_avg
  | group_id | state_id | flags
  | counter0_index | counter0_upper_threshold | counter0_lower_threshold
deriving DecidableEq, Repr

/-- A `struct pmu_cmd` as the perfmon client fills it: header and the perfmon fields set,
in program order. -/
structure pmu_cmd where
  /-- Header field `hdr.unit_id`. -/
  unit_id : Nat
  /-- Header field `hdr.size` (`u8`). -/
  size : Nat
  /-- Assignments to `cmd.cmd.perfmon`, oldest first. -/
  perfmon : List (perfmon_cmd_field × Nat)
deriving DecidableEq, Repr

/-- The threshold counter that `pv->set_perfmon_cntr_*` update and that the payload
points to. -/
structure perfmon_cntr where
  /-- Upper threshold in parts per 10000. -/
  upper_threshold : Nat
  /-- Lower threshold in parts per 10000. -/
  lower_threshold : Nat
  /-- Validity flag. -/
  valid : Bool
deriving DecidableEq, Repr

/-- The input half of a `struct pmu_payload`. -/
structure pmu_payload where
  /-- Contents of the buffer `in.buf` points to. -/
  in_buf : perfmon_cntr
  /-- Field `in.size`. -/
  in_size : Nat
  /-- Field `in.offset`. -/
  in_offset : Nat
deriving DecidableEq, Repr

/-- Calls that leave `pmu_perfmon.c` on the command and RPC paths. -/
inductive pmu_action where
  | pmu_init_perfmon_counter
  | nvgpu_alloc (size : Nat)
  | nvgpu_pmu_cmd_post (cmd : pmu_cmd) (payload : Option pmu_payload) (queue_id : Nat)
  | pmu_rpc_execute (function : Nat) (params : List (perfmon_cmd_field × Nat))
  | pmu_perfmon_start_sampling
deriving DecidableEq, Repr

/-- The two functions of `pmu_perfmon.c` that the HAL slot
`g->ops.pmu.pmu_perfmon_start_sampling` is bound to. -/
inductive perfmon_start_op where
  | nvgpu_pmu_perfmon_start_sampling
  | nvgpu_pmu_perfmon_start_sampling_rpc
deriving DecidableEq, Repr

/-- The part of `struct gk20a` seen by the perfmon command code. -/
structure gk20a where
  /-- Field `params.gpu_arch`. -/
  gpu_arch : Nat
  /-- Field `params.gpu_impl`. -/
  gpu_impl : Nat
  /-- Value of `nvgpu_is_enabled(g, NVGPU_PMU_PERFMON)`. -/
  perfmon_enabled : Bool
  /-- Binding of `ops.pmu.pmu_perfmon_start_sampling`. -/
  start_op : perfmon_start_op
  /-- The threshold counter owned by `struct nvgpu_pmu`. -/
  cntr : perfmon_cntr
  /-- The state `*pmu->pmu_perfmon`. -/
  pmu_perfmon : nvgpu_pmu_perfmon
  /-- Calls made so far, oldest first. -/
  actions : List pmu_action
deriving DecidableEq, Repr

/-- Answers of the environment to the calls one perfmon command function makes. -/
structure cmd_env where
  /-- Result of `nvgpu_alloc(&pmu->dmem, 2U * sizeof(u16))`, 0 on failure (`u64`). -/
  dmem_alloc : Nat
  /-- Result of `pv->get_pmu_perfmon_cmd_init_size()`. -/
  cmd_init_size : Nat
  /-- Result of `pv->get_pmu_perfmon_cmd_start_size()`. -/
  cmd_start_size : Nat
  /-- Value of `sizeof(struct pmu_perfmon_cmd_stop)`. -/
  cmd_stop_size : Nat
  /-- Result of `pv->get_perfmon_cntr_sz(pmu)`. -/
  cntr_sz : Nat
  /-- Status of `pv->get_perfmon_cmd_init_offsetofvar`. -/
  init_offset_status : Int
  /-- Offset stored by `pv->get_perfmon_cmd_init_offsetofvar`. -/
  init_offset : Nat
  /-- Status of `pv->get_perfmon_cmd_start_offsetofvar`. -/
  start_offset_status : Int
  /-- Offset stored by `pv->get_perfmon_cmd_start_offsetofvar`. -/
  start_offset : Nat
  /-- Status of `nvgpu_pmu_cmd_post`. -/
  cmd_post_status : Int
  /-- Status that `PMU_RPC_EXECUTE` stores. -/
  rpc_status : Int
deriving DecidableEq, Repr

/-- Appends one call to the log. -/
def gk20a.log (g : gk20a) (a : pmu_action) : gk20a := { g with actions := g.actions ++ [a] }

/-- Embedding of `nvgpu_pmu_init_perfmon`. `none` stands for a failed `nvgpu_assert`. -/
def nvgpu_pmu_init_perfmon (c : perfmon_consts) (env : cmd_env) (g : gk20a) :
    Option (Int × gk20a) :=
  if !g.perfmon_enabled then some (0, g)
  else
    let g1 := { g with pmu_perfmon := { g.pmu_perfmon with perfmon_ready := false } }
    let g2 := g1.log pmu_action.pmu_init_perfmon_counter
    -- allocation of the sample buffer, guarded by `nvgpu_assert(tmp_addr <= U32_MAX)`
    let alloc : Option gk20a :=
      if g2.pmu_perfmon.sample_buffer = 0 then
        if env.dmem_alloc ≤ U32_MAX then
          some { (g2.log (pmu_action.nvgpu_alloc 4)) with
            pmu_perfmon := { g2.pmu_perfmon with sample_buffer := u32 env.dmem_alloc } }
        else none
      else some g2
    match alloc with
    | none => none
    | some g3 =>
      if g3.pmu_perfmon.sample_buffer = 0 then some (-ENOMEM, g3)
      else
        let unit_id := get_perfmon_id c g3.gpu_arch g3.gpu_impl
        if unit_id = c.PMU_UNIT_INVALID then some (-EINVAL, g3)
        else
          let tmp_size := u64 (c.PMU_CMD_HDR_SIZE + env.cmd_init_size)
          if tmp_size ≤ U8_MAX then
            let cmd : pmu_cmd :=
              { unit_id := unit_id, size := tmp_size,
                perfmon := [(perfmon_cmd_field.cmd_type, c.PMU_PERFMON_CMD_ID_INIT),
                  (perfmon_cmd_field.sample_buffer, g3.pmu_perfmon.sample_buffer % 2 ^ 16),
                  (perfmon_cmd_field.dec_cnt, 15),
                  (perfmon_cmd_field.base_cnt_id, 6),
                  (perfmon_cmd_field.samp_period_us, 16700),
                  (perfmon_cmd_field.num_cnt, 1),
                  (perfmon_cmd_field.mov_avg, 17)] }
            let payload : pmu_payload :=
              { in_buf := g3.cntr, in_size := env.cntr_sz, in_offset := env.init_offset }
            if env.init_offset_status ≠ 0 then some (env.init_offset_status, g3)
            else
              let g4 := g3.log
                (pmu_action.nvgpu_pmu_cmd_post cmd (some payload) PMU_COMMAND_QUEUE_LPQ)
              if env.cmd_post_status ≠ 0 then some (env.cmd_post_status, g4)
              else some (0, g4)
          else none

/-- Embedding of `nvgpu_pmu_perfmon_start_sampling`. `none` stands for a failed
`nvgpu_assert`. -/
def nvgpu_pmu_perfmon_start_sampling (c : perfmon_consts) (env : cmd_env) (g : gk20a) :
    Option (Int × gk20a) :=
  if !g.perfmon_enabled then some (0, g)
  else
    let unit_id := get_perfmon_id c g.gpu_arch g.gpu_impl
    if unit_id = c.PMU_UNIT_INVALID then some (-EINVAL, g)
    else
      let tmp_size := u64 (c.PMU_CMD_HDR_SIZE + env.cmd_start_size)
      if tmp_size ≤ U8_MAX then
        let cmd : pmu_cmd :=
          { unit_id := unit_id, size := tmp_size,
            perfmon := [(perfmon_cmd_field.cmd_type, c.PMU_PERFMON_CMD_ID_START),
              (perfmon_cmd_field.group_id, c.PMU_DOMAIN_GROUP_PSTATE),
              (perfmon_cmd_field.state_id,
                g.pmu_perfmon.perfmon_state_id.getD c.PMU_DOMAIN_GROUP_PSTATE 0),
              (perfmon_cmd_field.flags,
                c.PMU_PERFMON_FLAG_ENABLE_INCREASE ||| c.PMU_PERFMON_FLAG_ENABLE_DECREASE |||
                  c.PMU_PERFMON_FLAG_CLEAR_PREV)] }
        let cntr : perfmon_cntr := ⟨3000, 1000, true⟩
        let g1 := { g with cntr := cntr }
        let payload : pmu_payload :=
          { in_buf := g1.cntr, in_size := env.cntr_sz, in_offset := env.start_offset }
        if env.start_offset_status ≠ 0 then some (env.start_offset_status, g1)
        else
          let g2 := g1.log
            (pmu_action.nvgpu_pmu_cmd_post cmd (some payload) PMU_COMMAND_QUEUE_LPQ)
          if env.cmd_post_status ≠ 0 then some (env.cmd_post_status, g2)
          else some (0, g2)
      else none

/-- Embedding of `nvgpu_pmu_perfmon_stop_sampling`. `none` stands for a failed
`nvgpu_assert`. -/
def nvgpu_pmu_perfmon_stop_sampling (c : perfmon_consts) (env : cmd_env) (g : gk20a) :
    Option (Int × gk20a) :=
  if !g.perfmon_enabled then some (0, g)
  else
    let unit_id := get_perfmon_id c g.gpu_arch g.gpu_impl
    if unit_id = c.PMU_UNIT_INVALID then some (-EINVAL, g)
    else
      let tmp_size := u64 (c.PMU_CMD_HDR_SIZE + env.cmd_stop_size)
      if tmp_size ≤ U8_MAX then
        let cmd : pmu_cmd :=
          { unit_id := unit_id, size := tmp_size,
            perfmon := [(perfmon_cmd_field.cmd_type, c.PMU_PERFMON_CMD_ID_STOP)] }
        let g1 := g.log (pmu_action.nvgpu_pmu_cmd_post cmd none PMU_COMMAND_QUEUE_LPQ)
        if env.cmd_post_status ≠ 0 then some (env.cmd_post_status, g1)
        else some (0, g1)
      else none

/-! ## Perfmon RPCs -/

/-- Embedding of `nvgpu_pmu_init_perfmon_rpc`. -/
def nvgpu_pmu_init_perfmon_rpc (c : perfmon_consts) (env : cmd_env) (g : gk20a) :
    Int × gk20a :=
  if !g.perfmon_enabled then (0, g)
  else
    let g1 := { g with pmu_perfmon := { g.pmu_perfmon with perfmon_ready := false } }
    let g2 := g1.log pmu_action.pmu_init_perfmon_counter
    let g3 := g2.log (pmu_action.pmu_rpc_execute c.rpc.INIT
      [(perfmon_cmd_field.samp_period_us, 16700), (perfmon_cmd_field.dec_cnt, 15),
        (perfmon_cmd_field.base_cnt_id, 6), (perfmon_cmd_field.mov_avg, 17),
        (perfmon_cmd_field.num_cnt, 1), (perfmon_cmd_field.counter0_index, 3)])
    -- both the failing and the succeeding status reach `exit: return 0`
    if env.rpc_status ≠ 0 then (0, g3) else (0, g3)

/-- Embedding of `nvgpu_pmu_perfmon_start_sampling_rpc`. -/
def nvgpu_pmu_perfmon_start_sampling_rpc (c : perfmon_consts) (env : cmd_env) (g : gk20a) :
    Int × gk20a :=
  if !g.perfmon_enabled then (0, g)
  else
    let g1 := g.log (pmu_action.pmu_rpc_execute c.rpc.START
      [(perfmon_cmd_field.group_id, c.PMU_DOMAIN_GROUP_PSTATE),
        (perfmon_cmd_field.state_id,
          g.pmu_perfmon.perfmon_state_id.getD c.PMU_DOMAIN_GROUP_PSTATE 0),
        (perfmon_cmd_field.flags,
          c.PMU_PERFMON_FLAG_ENABLE_INCREASE ||| c.PMU_PERFMON_FLAG_ENABLE_DECREASE |||
            c.PMU_PERFMON_FLAG_CLEAR_PREV),
        (perfmon_cmd_field.counter0_upper_threshold, 3000),
        (perfmon_cmd_field.counter0_lower_threshold, 1000)])
    (env.rpc_status, g1)

/-- Embedding of `nvgpu_pmu_perfmon_stop_sampling_rpc`. -/
def nvgpu_pmu_perfmon_stop_sampling_rpc (c : perfmon_consts) (env : cmd_env) (g : gk20a) :
    Int × gk20a :=
  if !g.perfmon_enabled then (0, g)
  else (env.rpc_status, g.log (pmu_action.pmu_rpc_execute c.rpc.STOP []))

/-! ## Perfmon events -/

/-- Dispatch through the HAL slot `g->ops.pmu.pmu_perfmon_start_sampling`. -/
def pmu_perfmon_start_sampling_op (c : perfmon_consts) (env : cmd_env) (g : gk20a) :
    Option (Int × gk20a) :=
  let g1 := g.log pmu_action.pmu_perfmon_start_sampling
  match g1.start_op with
  | perfmon_start_op.nvgpu_pmu_perfmon_start_sampling =>
    nvgpu_pmu_perfmon_start_sampling c env g1
  | perfmon_start_op.nvgpu_pmu_perfmon_start_sampling_rpc =>
    some (nvgpu_pmu_perfmon_start_sampling_rpc c env g1)

/-- Embedding of `nvgpu_pmu_handle_perfmon_event`; `msg_type` is `msg->msg_type`.
`none` stands for a failed `nvgpu_assert` inside the START that is re-issued. -/
def nvgpu_pmu_handle_perfmon_event (c : perfmon_consts) (env : cmd_env) (g : gk20a)
    (msg_type : Nat) : Option (Int × gk20a) :=
  let p := g.pmu_perfmon
  let p1 :=
    if msg_type = c.PMU_PERFMON_MSG_ID_INCREASE_EVENT then
      { p with perfmon_events_cnt := u64 (p.perfmon_events_cnt + 1) }
    else if msg_type = c.PMU_PERFMON_MSG_ID_DECREASE_EVENT then
      { p with perfmon_events_cnt := u64 (p.perfmon_events_cnt + 1) }
    else if msg_type = c.PMU_PERFMON_MSG_ID_INIT_EVENT then
      { p with perfmon_ready := true }
    else p
  let g1 := { g with pmu_perfmon := p1 }
  if g1.pmu_perfmon.perfmon_sampling_enabled then pmu_perfmon_start_sampling_op c env g1
  else some (0, g1)

/-! ## Concrete inputs used by the closed theorems -/

/-- RPC identifiers numbered in declaration order. -/
def sample_rpc_ids : perfmon_rpc_ids := { INIT := 0, START := 1, STOP := 2, QUERY := 3 }

/-- A perfmon state that is not ready, with the given prior average. -/
def unready_state (avg : Nat) : nvgpu_pmu_perfmon :=
  { nvgpu_pmu_perfmon.zeroed with
    perfmon_ready := false, load_avg := avg, load := 7, load_shadow := 5 }

/-- The RPC path with a QUERY reply carrying `sample`. -/
def rpc_reply_env (sample : Nat) : load_env :=
  { has_get_samples_rpc := true, perfmon_enabled := true, rpc_status := 0,
    query_reply := some sample, dmem_err := 0, dmem_word := 0 }

/-- The DMEM path with a successful copy of `word`. -/
def dmem_env (word : Nat) : load_env :=
  { has_get_samples_rpc := false, perfmon_enabled := true, rpc_status := 0,
    query_reply := none, dmem_err := 0, dmem_word := word }

/-- Power on, all four idle-counter operations present, and the given readings. -/
def busy_read_env (busy total intr : Nat) : busy_env :=
  { power_on := true, has_read_idle_counter := true, has_reset_idle_counter := true,
    has_read_idle_intr_status := true, has_clear_idle_intr_status := true,
    busy_cycles := busy, total_cycles := total, intr_status := intr }

/-- The counters and the interrupt status are read: the device is powered and the four
idle-counter operations are bound. -/
def busy_env.reads (env : busy_env) : Prop :=
  env.power_on = true ∧ env.has_read_idle_counter = true ∧ env.has_reset_idle_counter = true ∧
  env.has_read_idle_intr_status = true ∧ env.has_clear_idle_intr_status = true

/-- The register writes that lead from `g` to `g'`, oldest first. -/
def new_writes (g g' : gk20a_fifo) : List (fifo_reg × Nat) := g'.writes.drop g.writes.length

/-- Field encoders shaped like those of a TU104 register manual: mask, then shift. -/
def sample_hw : hw_fifo_tu104 :=
  { fifo_runlist_base_lo_ptr_align_shift_v := 12,
    fifo_runlist_base_lo_ptr_lo_f := fun v => (v &&& 0xfffff) <<< 12,
    fifo_runlist_base_lo_target_sys_mem_ncoh_f := 3,
    fifo_runlist_base_lo_target_sys_mem_coh_f := 2,
    fifo_runlist_base_lo_target_vid_mem_f := 0,
    fifo_runlist_base_hi_ptr_hi_f := fun v => v &&& 0xff,
    fifo_runlist_submit_length_f := fun v => v &&& 0xffff,
    fifo_runlist_submit_info_pending_true_f := 0x8000 }

/-- A device whose runlist buffers sit at `0x12345000` in non-coherent system memory, with
every register holding 7 and no write logged. -/
def sample_fifo : gk20a_fifo :=
  { runlist_mem := fun _ _ => { addr := 0x12345000, aperture_mask := fun ncoh _ _ => ncoh },
    regs := fun _ => 7,
    writes := [] }

/-- The action is a read of a register. -/
def wait_action.is_readl : wait_action → Bool
  | wait_action.nvgpu_readl _ => true
  | _ => false

/-- The action is a sleep. -/
def wait_action.is_usleep : wait_action → Bool
  | wait_action.nvgpu_usleep_range _ _ => true
  | _ => false

/-- Number of register reads in a trace. -/
def count_reads (tr : List wait_action) : Nat := tr.countP wait_action.is_readl

/-- Number of sleeps in a trace. -/
def count_sleeps (tr : List wait_action) : Nat := tr.countP wait_action.is_usleep

/-- The `k`-th read of the submit-info register shows the pending bit set. -/
def wait_env.pending (hw : hw_fifo_tu104) (env : wait_env) (k : Nat) : Prop :=
  env.submit_info k &&& hw.fifo_runlist_submit_info_pending_true_f ≠ 0

instance (hw : hw_fifo_tu104) (env : wait_env) (k : Nat) : Decidable (env.pending hw k) := by
  unfold wait_env.pending
  infer_instance

/-- Hardware that clears the pending bit at the third poll, deadline never reached. -/
def clears_at_2 : wait_env :=
  { timeout_init_ret := 0,
    submit_info := fun k => if k < 2 then 0x8000 else 0,
    timeout_expired := fun _ => 0 }

/-- Hardware that stays pending while the deadline is reported expired after the second
poll. -/
def expires_at_1 : wait_env :=
  { timeout_init_ret := 0,
    submit_info := fun _ => 0x8000,
    timeout_expired := fun k => if k < 1 then 0 else 1 }

/-- The five GPU identifiers are case labels of one `switch`, hence pairwise distinct. -/
def perfmon_consts.gpuids_distinct (c : perfmon_consts) : Prop :=
  [c.GK20A_GPUID_GK20A, c.GK20A_GPUID_GM20B, c.GK20A_GPUID_GM20B_B, c.NVGPU_GPUID_GP10B,
    c.NVGPU_GPUID_GV11B].Nodup

/-- The two perfmon unit identifiers differ from `PMU_UNIT_INVALID`. -/
def perfmon_consts.units_valid (c : perfmon_consts) : Prop :=
  c.PMU_UNIT_PERFMON ≠ c.PMU_UNIT_INVALID ∧ c.PMU_UNIT_PERFMON_T18X ≠ c.PMU_UNIT_INVALID

instance (c : perfmon_consts) : Decidable c.gpuids_distinct := by
  unfold perfmon_consts.gpuids_distinct
  infer_instance

instance (c : perfmon_consts) : Decidable c.units_valid := by
  unfold perfmon_consts.units_valid
  infer_instance

/-- The version `ver` is one of the five identifiers `get_perfmon_id` knows. -/
def perfmon_consts.supported (c : perfmon_consts) (ver : Nat) : Prop :=
  ver = c.GK20A_GPUID_GK20A ∨ ver = c.GK20A_GPUID_GM20B ∨ ver = c.GK20A_GPUID_GM20B_B ∨
  ver = c.NVGPU_GPUID_GP10B ∨ ver = c.NVGPU_GPUID_GV11B

instance (c : perfmon_consts) (ver : Nat) : Decidable (c.supported ver) := by
  unfold perfmon_consts.supported
  infer_instance

/-- The action is a call through `g->ops.pmu.pmu_perfmon_start_sampling`. -/
def pmu_action.is_start_call : pmu_action → Bool
  | pmu_action.pmu_perfmon_start_sampling => true
  | _ => false

/-- The action is a call of `nvgpu_pmu_cmd_post`. -/
def pmu_action.is_cmd_post : pmu_action → Bool
  | pmu_action.nvgpu_pmu_cmd_post _ _ _ => true
  | _ => false

/-- The calls that lead from `g` to `g'`, oldest first. -/
def new_actions (g g' : gk20a) : List pmu_action := g'.actions.drop g.actions.length

/-- One consistent choice of the constants, for the closed theorems. -/
def sample_consts : perfmon_consts :=
  { GK20A_GPUID_GK20A := 0xEA, GK20A_GPUID_GM20B := 0x12B, GK20A_GPUID_GM20B_B := 0x12E,
    NVGPU_GPUID_GP10B := 0x13B, NVGPU_GPUID_GV11B := 0x15B,
    PMU_UNIT_PERFMON := 0x12, PMU_UNIT_PERFMON_T18X := 0x11, PMU_UNIT_INVALID := 0xFF,
    PMU_CMD_HDR_SIZE := 4,
    PMU_PERFMON_CMD_ID_INIT := 2, PMU_PERFMON_CMD_ID_START := 0, PMU_PERFMON_CMD_ID_STOP := 1,
    PMU_DOMAIN_GROUP_PSTATE := 0,
    PMU_PERFMON_FLAG_ENABLE_INCREASE := 1, PMU_PERFMON_FLAG_ENABLE_DECREASE := 2,
    PMU_PERFMON_FLAG_CLEAR_PREV := 4,
    PMU_PERFMON_MSG_ID_INCREASE_EVENT := 0, PMU_PERFMON_MSG_ID_DECREASE_EVENT := 1,
    PMU_PERFMON_MSG_ID_INIT_EVENT := 2,
    rpc := sample_rpc_ids }

/-- An environment in which every external call succeeds. -/
def sample_cmd_env : cmd_env :=
  { dmem_alloc := 0x400, cmd_init_size := 16, cmd_start_size := 8, cmd_stop_size := 1,
    cntr_sz := 8, init_offset_status := 0, init_offset := 12, start_offset_status := 0,
    start_offset := 4, cmd_post_status := 0, rpc_status := 0 }

/-- A device of version `arch + impl` with perfmon enabled, START bound to the command
variant, and the given perfmon state. -/
def sample_gk20a (arch impl : Nat) (p : nvgpu_pmu_perfmon) : gk20a :=
  { gpu_arch := arch, gpu_impl := impl, perfmon_enabled := true,
    start_op := perfmon_start_op.nvgpu_pmu_perfmon_start_sampling,
    cntr := { upper_threshold := 0, lower_threshold := 0, valid := false },
    pmu_perfmon := p, actions := [] }

/-- A ready, sampling perfmon state with an allocated sample buffer and the given event
count. -/
def sampling_state (cnt : Nat) : nvgpu_pmu_perfmon :=
  { nvgpu_pmu_perfmon.zeroed with
    perfmon_events_cnt := cnt, sample_buffer := 0x100, perfmon_ready := true,
    perfmon_sampling_enabled := true }

/-- A ready perfmon state without a sample buffer. -/
def ready_unallocated : nvgpu_pmu_perfmon :=
  { nvgpu_pmu_perfmon.zeroed with perfmon_ready := true, sample_buffer := 0 }

instance (env : busy_env) : Decidable env.reads := by
  unfold busy_env.reads
  infer_instance

/-- Embedding of `nvgpu_pmu_perfmon_set_sampling_enable_status`. -/
def nvgpu_pmu_perfmon_set_sampling_enable_status (p : nvgpu_pmu_perfmon) (status : Bool) :
    nvgpu_pmu_perfmon :=
  { p with perfmon_sampling_enabled := status }

/-- The queue identifiers of the commands posted by a sequence of calls, oldest first. -/
def posted_queues : List pmu_action → List Nat
  | [] => []
  | pmu_action.nvgpu_pmu_cmd_post _ _ queue_id :: rest => queue_id :: posted_queues rest
  | _ :: rest => posted_queues rest

/-- The delay that the specification gives for the `k`-th sleep of the polling loop:
the default doubled `k` times, capped at the maximum. -/
def backoff_delay (DELAY_DEFAULT DELAY_MAX k : Nat) : Nat := min (DELAY_DEFAULT * 2 ^ k) DELAY_MAX

/-- The lower bounds of the sleeps of a trace, oldest first. -/
def sleep_delays : List wait_action → List Nat
  | [] => []
  | wait_action.nvgpu_usleep_range min_us _ :: rest => min_us :: sleep_delays rest
  | _ :: rest => sleep_delays rest

/-- Between any two consecutive register reads of the trace there is exactly one sleep:
whenever the trace splits as `a`, a read, `mid`, a read, `b` with no read in `mid`,
then `mid` holds exactly one sleep. -/
def one_sleep_between_reads (tr : List wait_action) : Prop :=
  ∀ (a : List wait_action) (r1 : fifo_reg) (mid : List wait_action) (r2 : fifo_reg)
    (b : List wait_action),
    tr = a ++ wait_action.nvgpu_readl r1 :: (mid ++ wait_action.nvgpu_readl r2 :: b) →
    (∀ x, x ∈ mid → x.is_readl = false) → count_sleeps mid = 1

/-- Hardware that stays pending while the deadline is reported expired after poll `j`. -/
def expires_at (j : Nat) : wait_env :=
  { timeout_init_ret := 0,
    submit_info := fun _ => 0x8000,
    timeout_expired := fun k => if k < j then 0 else 1 }

/-- The perfmon states reachable from the zero-initialised state through the functions of
`pmu_perfmon.c` that write it, when every raw sample delivered by a QUERY reply fits 16
bits (the DMEM path copies two bytes, so its sample always does). The command functions
that only post (`start`/`stop` sampling and their RPC variants) leave the perfmon state as
it is and add no state. -/
inductive reachable (c : perfmon_consts) : nvgpu_pmu_perfmon → Prop where
  | zeroed : reachable c nvgpu_pmu_perfmon.zeroed
  | rpc_handler (p : nvgpu_pmu_perfmon) (function sample0 : Nat) :
      reachable c p → sample0 < 2 ^ 16 →
      reachable c (nvgpu_pmu_perfmon_rpc_handler c.rpc p function sample0)
  | get_samples_rpc (p : nvgpu_pmu_perfmon) (env : load_env) :
      reachable c p → (∀ s, env.query_reply = some s → s < 2 ^ 16) →
      reachable c (nvgpu_pmu_perfmon_get_samples_rpc c.rpc env p).2
  | load_update (p : nvgpu_pmu_perfmon) (env : load_env) :
      reachable c p → (∀ s, env.query_reply = some s → s < 2 ^ 16) →
      reachable c (nvgpu_pmu_load_update c.rpc env p).2
  | handle_perfmon_event (g g' : gk20a) (env : cmd_env) (msg_type : Nat) (ret : Int) :
      reachable c g.pmu_perfmon →
      nvgpu_pmu_handle_perfmon_event c env g msg_type = some (ret, g') →
      reachable c g'.pmu_perfmon
  | init_perfmon (g g' : gk20a) (env : cmd_env) (ret : Int) :
      reachable c g.pmu_perfmon →
      nvgpu_pmu_init_perfmon c env g = some (ret, g') →
      reachable c g'.pmu_perfmon
  | init_perfmon_rpc (g : gk20a) (env : cmd_env) :
      reachable c g.pmu_perfmon →
      reachable c (nvgpu_pmu_init_perfmon_rpc c env g).2.pmu_perfmon
  | set_sampling_enable_status (p : nvgpu_pmu_perfmon) (status : Bool) :
      reachable c p → reachable c (nvgpu_pmu_perfmon_set_sampling_enable_status p status)

/-- An environment in which the RPC fails with `-ETIMEDOUT`; every other call succeeds. -/
def failing_rpc_cmd_env : cmd_env := { sample_cmd_env with rpc_status := -ETIMEDOUT }

/-- The RPC path of the load update with a QUERY RPC that fails with `-ETIMEDOUT` and whose
reply never arrives. -/
def failing_rpc_load_env : load_env :=
  { has_get_samples_rpc := true, perfmon_enabled := true, rpc_status := -ETIMEDOUT,
    query_reply := none, dmem_err := 0, dmem_word := 0 }

/-- The DMEM path of the load update with a copy that fails with `-ETIMEDOUT`. -/
def failing_dmem_load_env : load_env :=
  { has_get_samples_rpc := false, perfmon_enabled := true, rpc_status := 0,
    query_reply := none, dmem_err := -ETIMEDOUT, dmem_word := 0 }

/-- A ready perfmon state with last raw sample 450, shadow 7 and average 100. -/
def ready_loaded : nvgpu_pmu_perfmon :=
  { nvgpu_pmu_perfmon.zeroed with
    perfmon_ready := true, load := 450, load_shadow := 7, load_avg := 100 }

/-- The bound that 16-bit samples impose on the load fields: the raw sample fits 16 bits,
the shadow and the average are at most `65535 / 10 = 6553`. -/
def load_inv (p : nvgpu_pmu_perfmon) : Prop :=
  p.load < 2 ^ 16 ∧ p.load_shadow ≤ 6553 ∧ p.load_avg ≤ 6553

instance (p : nvgpu_pmu_perfmon) : Decidable (load_inv p) := by
  unfold load_inv
  infer_instance

/-- The action issues a perfmon START to the firmware: a posted command whose type is
`PMU_PERFMON_CMD_ID_START`, or the START RPC. -/
def pmu_action.is_start_post (c : perfmon_consts) : pmu_action → Bool
  | pmu_action.nvgpu_pmu_cmd_post cmd _ _ =>
    decide ((perfmon_cmd_field.cmd_type, c.PMU_PERFMON_CMD_ID_START) ∈ cmd.perfmon)
  | pmu_action.pmu_rpc_execute function _ => decide (function = c.rpc.START)
  | _ => false

/-! ## Theorems -/

/-- The averaging step in `u32` arithmetic equals the exact quotient when nothing wraps. -/
theorem u32_avg_exact (avg shadow : Nat) (h : 9 * avg + shadow < 2 ^ 32) :
    u32 (u32 (9 * avg) + shadow) / 10 = (9 * avg + shadow) / 10 := by
  unfold u32
  have h1 : 9 * avg < 2 ^ 32 := by omega
  rw [Nat.mod_eq_of_lt h1, Nat.mod_eq_of_lt h]

/-- The averaging step in `u32` arithmetic is the wrapped sum divided by ten. -/
theorem u32_avg_mod (avg shadow : Nat) :
    u32 (u32 (9 * avg) + shadow) / 10 = ((9 * avg + shadow) % 2 ^ 32) / 10 := by
  unfold u32
  rw [Nat.mod_add_mod]

/-- On a ready device whose raw sample `raw` is delivered by the QUERY reply
(`sample_buffer[0]`) or read from DMEM (a 16-bit word), `nvgpu_pmu_load_update` returns 0,
sets `load_shadow = raw / 10` and `load_avg' = ((9 * avg + load_shadow) mod 2^32) / 10`,
which is `(9 * avg + load_shadow) / 10` whenever `9 * avg + load_shadow < 2^32`. -/
theorem load_update_ready_mod (ids : perfmon_rpc_ids) (env : load_env) (p : nvgpu_pmu_perfmon)
    (raw : Nat) (hids : ids.distinct) (hready : p.perfmon_ready = true)
    (hfetch : (env.has_get_samples_rpc = true ∧ env.perfmon_enabled = true ∧
        env.query_reply = some raw) ∨
      (env.has_get_samples_rpc = false ∧ env.dmem_err = 0 ∧ env.dmem_word % 2 ^ 16 = raw)) :
    (nvgpu_pmu_load_update ids env p).1 = 0 ∧
    (nvgpu_pmu_load_update ids env p).2.load_shadow = raw / 10 ∧
    (nvgpu_pmu_load_update ids env p).2.load_avg
      = ((9 * p.load_avg + raw / 10) % 2 ^ 32) / 10 ∧
    (9 * p.load_avg + raw / 10 < 2 ^ 32 →
      (nvgpu_pmu_load_update ids env p).2.load_avg = (9 * p.load_avg + raw / 10) / 10) := by
  obtain ⟨h1, h2, h3, h4, h5, h6⟩ := hids
  have hq1 : ¬ ids.QUERY = ids.INIT := fun h => h3 h.symm
  have hq2 : ¬ ids.QUERY = ids.START := fun h => h5 h.symm
  have hq3 : ¬ ids.QUERY = ids.STOP := fun h => h6 h.symm
  rcases hfetch with ⟨hr, he, hq⟩ | ⟨hr, he, hw⟩
  · have key : nvgpu_pmu_load_update ids env p =
        (0, { p with
              perfmon_query := 1, load := raw, load_shadow := raw / 10,
              load_avg := u32 (u32 (9 * p.load_avg) + raw / 10) / 10 }) := by
      simp [nvgpu_pmu_load_update, nvgpu_pmu_perfmon_get_samples_rpc,
        nvgpu_pmu_perfmon_rpc_handler, hready, hr, he, hq, hq1, hq2, hq3]
    rw [key]
    refine ⟨rfl, rfl, u32_avg_mod _ _, fun h => u32_avg_exact _ _ h⟩
  · have hmod : env.dmem_word % 65536 = raw := hw
    have key : nvgpu_pmu_load_update ids env p =
        (0, { p with
              load_shadow := raw / 10,
              load_avg := u32 (u32 (9 * p.load_avg) + raw / 10) / 10 }) := by
      simp [nvgpu_pmu_load_update, hready, hr, he, hmod]
    rw [key]
    refine ⟨rfl, rfl, u32_avg_mod _ _, fun h => u32_avg_exact _ _ h⟩

/-- C2 (counterexample): on a device that is not ready with prior average 100,
`nvgpu_pmu_load_update` returns 0 and zeroes `load_shadow` and `load`, but `load_avg` stays
100 instead of becoming `(9 * 100 + 0) / 10 = 90`: the function returns before the
averaging step. -/
theorem C2_not_ready_keeps_avg :
    (unready_state 100).perfmon_ready = false ∧
    (nvgpu_pmu_load_update sample_rpc_ids (rpc_reply_env 450) (unready_state 100)).1 = 0 ∧
    (nvgpu_pmu_load_update sample_rpc_ids (rpc_reply_env 450) (unready_state 100)).2.load_shadow
      = 0 ∧
    (nvgpu_pmu_load_update sample_rpc_ids (rpc_reply_env 450) (unready_state 100)).2.load = 0 ∧
    (nvgpu_pmu_load_update sample_rpc_ids (rpc_reply_env 450) (unready_state 100)).2.load_avg
      = 100 ∧
    (nvgpu_pmu_load_update sample_rpc_ids (rpc_reply_env 450) (unready_state 100)).2.load_avg
      ≠ (9 * (unready_state 100).load_avg + 0) / 10 := by
  decide

/-- C2 (amended): for every perfmon state with `perfmon_ready = false`,
`nvgpu_pmu_load_update` returns 0, sets `load_shadow = 0` and `load = 0`, and changes
nothing else; in particular `load_avg` is left as it was. -/
theorem C2_not_ready (ids : perfmon_rpc_ids) (env : load_env) (p : nvgpu_pmu_perfmon)
    (hready : p.perfmon_ready = false) :
    nvgpu_pmu_load_update ids env p = (0, { p with load_shadow := 0, load := 0 }) ∧
    (nvgpu_pmu_load_update ids env p).2.load_avg = p.load_avg := by
  simp [nvgpu_pmu_load_update, hready]

/-- C2 (witness): the state that is not ready with prior average 100. -/
theorem C2_not_ready_witness :
    nvgpu_pmu_load_update sample_rpc_ids (dmem_env 450) (unready_state 100)
      = (0, { unready_state 100 with load_shadow := 0, load := 0 }) ∧
    (nvgpu_pmu_load_update sample_rpc_ids (dmem_env 450) (unready_state 100)).2.load_avg
      = (unready_state 100).load_avg :=
  C2_not_ready sample_rpc_ids (dmem_env 450) (unready_state 100) rfl

/-- When the counters are read, the norm is the saturating maximum if one of the three
anomalies holds and the wrapped, truncated ratio otherwise. -/
theorem busy_norm_eq (NORM_MAX : Nat) (env : busy_env) (h : env.reads) :
    (nvgpu_pmu_busy_cycles_norm NORM_MAX env).norm =
      if env.intr_status ≠ 0 ∨ env.total_cycles = 0 ∨ env.busy_cycles > env.total_cycles
      then NORM_MAX
      else u32 (u64 (env.busy_cycles * NORM_MAX) / env.total_cycles) := by
  obtain ⟨h1, h2, h3, h4, h5⟩ := h
  unfold nvgpu_pmu_busy_cycles_norm
  simp only [h1, h2, h3, h4, h5]
  by_cases hi : env.intr_status ≠ 0
  · simp [hi]
  · by_cases ht : env.total_cycles = 0 ∨ env.busy_cycles > env.total_cycles
    · simp [hi, ht]
    · simp [hi, ht]

/-- C3 (counterexample): with `busy = total = 1`, no interrupt latched and
`PMU_BUSY_CYCLES_NORM_MAX = 1000`, `nvgpu_pmu_busy_cycles_norm` reports the maximum 1000
although `total ≠ 0`, `busy ≤ total` and the interrupt status is zero. -/
theorem C3_full_ratio_is_max :
    (busy_read_env 1 1 0).reads ∧
    (nvgpu_pmu_busy_cycles_norm 1000 (busy_read_env 1 1 0)).norm = 1000 ∧
    ¬ ((busy_read_env 1 1 0).total_cycles = 0 ∨
       (busy_read_env 1 1 0).busy_cycles > (busy_read_env 1 1 0).total_cycles ∨
       (busy_read_env 1 1 0).intr_status ≠ 0) := by
  decide

/-- C3 (amended): for every busy count, total count and interrupt status read by
`nvgpu_pmu_busy_cycles_norm`, the norm is `PMU_BUSY_CYCLES_NORM_MAX` whenever `total = 0`,
`busy > total` or the interrupt status is non-zero, and in every other case it is
`busy * PMU_BUSY_CYCLES_NORM_MAX / total` computed in `u64` and truncated to `u32`. When the
product does not wrap this is the exact quotient, and then the norm equals the maximum if
and only if `total = 0`, `busy ≥ total` (so also for `busy = total`) or the interrupt
status is non-zero. -/
theorem C3_busy_norm (NORM_MAX : Nat) (env : busy_env) (h : env.reads)
    (hpos : 0 < NORM_MAX) (hmax : NORM_MAX < 2 ^ 32) :
    ((env.total_cycles = 0 ∨ env.busy_cycles > env.total_cycles ∨ env.intr_status ≠ 0) →
      (nvgpu_pmu_busy_cycles_norm NORM_MAX env).norm = NORM_MAX) ∧
    (¬ (env.total_cycles = 0 ∨ env.busy_cycles > env.total_cycles ∨ env.intr_status ≠ 0) →
      (nvgpu_pmu_busy_cycles_norm NORM_MAX env).norm =
        ((env.busy_cycles * NORM_MAX) % 2 ^ 64 / env.total_cycles) % 2 ^ 32) ∧
    (env.busy_cycles * NORM_MAX < 2 ^ 64 →
      (¬ (env.total_cycles = 0 ∨ env.busy_cycles > env.total_cycles ∨ env.intr_status ≠ 0) →
        (nvgpu_pmu_busy_cycles_norm NORM_MAX env).norm =
          env.busy_cycles * NORM_MAX / env.total_cycles) ∧
      ((nvgpu_pmu_busy_cycles_norm NORM_MAX env).norm = NORM_MAX ↔
        (env.total_cycles = 0 ∨ env.busy_cycles ≥ env.total_cycles ∨ env.intr_status ≠ 0))) := by
  have hnorm := busy_norm_eq NORM_MAX env h
  have exact : env.busy_cycles * NORM_MAX < 2 ^ 64 → 0 < env.total_cycles →
      env.busy_cycles ≤ env.total_cycles →
      u32 (u64 (env.busy_cycles * NORM_MAX) / env.total_cycles)
        = env.busy_cycles * NORM_MAX / env.total_cycles := by
    intro hov ht hb
    unfold u32 u64
    rw [Nat.mod_eq_of_lt hov]
    apply Nat.mod_eq_of_lt
    have : env.busy_cycles * NORM_MAX / env.total_cycles ≤ NORM_MAX := by
      apply Nat.div_le_of_le_mul
      exact Nat.mul_le_mul_right _ hb
    omega
  refine ⟨?_, ?_, ?_⟩
  · intro hc
    rw [hnorm, if_pos]
    tauto
  · intro hc
    rw [hnorm, if_neg]
    · rfl
    · tauto
  · intro hov
    constructor
    · intro hc
      rw [hnorm, if_neg (by tauto)]
      exact exact hov (by omega) (by omega)
    · rw [hnorm]
      by_cases hc : env.intr_status ≠ 0 ∨ env.total_cycles = 0 ∨
          env.busy_cycles > env.total_cycles
      · rw [if_pos hc]
        constructor
        · intro _
          rcases hc with hc | hc | hc
          · exact Or.inr (Or.inr hc)
          · exact Or.inl hc
          · exact Or.inr (Or.inl (by omega))
        · intro _
          rfl
      · rw [if_neg hc]
        have ht : 0 < env.total_cycles := by
          rcases Nat.eq_zero_or_pos env.total_cycles with h0 | h0
          · exact absurd (Or.inr (Or.inl h0)) hc
          · exact h0
        have hb : env.busy_cycles ≤ env.total_cycles := by
          by_contra hlt
          exact hc (Or.inr (Or.inr (by omega)))
        have hi : env.intr_status = 0 := by
          by_contra hne
          exact hc (Or.inl hne)
        rw [exact hov ht hb]
        constructor
        · intro heq
          right; left
          by_contra hlt
          have hlt2 : env.busy_cycles < env.total_cycles := by omega
          have : env.busy_cycles * NORM_MAX / env.total_cycles < NORM_MAX := by
            rw [Nat.div_lt_iff_lt_mul ht]
            exact Nat.mul_lt_mul_of_pos_right hlt2 hpos |> fun h => by
              rw [Nat.mul_comm NORM_MAX]; exact h
          omega
        · intro hor
          rcases hor with h0 | hge | hne
          · omega
          · have hbe : env.busy_cycles = env.total_cycles := by omega
            rw [hbe]
            exact Nat.mul_div_cancel_left NORM_MAX ht
          · exact absurd hi hne

/-- C3 (witness): busy 250 of total 1000 with no interrupt gives the exact ratio 250, and
the maximum is not reported. -/
theorem C3_busy_norm_witness :
    (((busy_read_env 250 1000 0).total_cycles = 0 ∨
        (busy_read_env 250 1000 0).busy_cycles > (busy_read_env 250 1000 0).total_cycles ∨
        (busy_read_env 250 1000 0).intr_status ≠ 0) →
      (nvgpu_pmu_busy_cycles_norm 1000 (busy_read_env 250 1000 0)).norm = 1000) ∧
    (¬ ((busy_read_env 250 1000 0).total_cycles = 0 ∨
        (busy_read_env 250 1000 0).busy_cycles > (busy_read_env 250 1000 0).total_cycles ∨
        (busy_read_env 250 1000 0).intr_status ≠ 0) →
      (nvgpu_pmu_busy_cycles_norm 1000 (busy_read_env 250 1000 0)).norm =
        (((busy_read_env 250 1000 0).busy_cycles * 1000) % 2 ^ 64 /
          (busy_read_env 250 1000 0).total_cycles) % 2 ^ 32) ∧
    ((busy_read_env 250 1000 0).busy_cycles * 1000 < 2 ^ 64 →
      (¬ ((busy_read_env 250 1000 0).total_cycles = 0 ∨
          (busy_read_env 250 1000 0).busy_cycles > (busy_read_env 250 1000 0).total_cycles ∨
          (busy_read_env 250 1000 0).intr_status ≠ 0) →
        (nvgpu_pmu_busy_cycles_norm 1000 (busy_read_env 250 1000 0)).norm =
          (busy_read_env 250 1000 0).busy_cycles * 1000 /
            (busy_read_env 250 1000 0).total_cycles) ∧
      ((nvgpu_pmu_busy_cycles_norm 1000 (busy_read_env 250 1000 0)).norm = 1000 ↔
        ((busy_read_env 250 1000 0).total_cycles = 0 ∨
          (busy_read_env 250 1000 0).busy_cycles ≥ (busy_read_env 250 1000 0).total_cycles ∨
          (busy_read_env 250 1000 0).intr_status ≠ 0))) :=
  C3_busy_norm 1000 (busy_read_env 250 1000 0) ⟨rfl, rfl, rfl, rfl, rfl⟩ (by decide) (by decide)

/-- C10: the effect of `nvgpu_pmu_perfmon_rpc_handler` is fixed by the reply's function
id: INIT sets `perfmon_ready`, QUERY stores `sample_buffer[0]` in `load` and sets
`perfmon_query` to 1, and START, STOP and every unrecognised id return the state unchanged
(the handler is `void`, so no error is raised). -/
theorem C10_rpc_handler_dispatch (ids : perfmon_rpc_ids) (p : nvgpu_pmu_perfmon)
    (function sample0 : Nat) (hids : ids.distinct) :
    (function = ids.INIT →
      nvgpu_pmu_perfmon_rpc_handler ids p function sample0 = { p with perfmon_ready := true }) ∧
    (function = ids.QUERY →
      nvgpu_pmu_perfmon_rpc_handler ids p function sample0
        = { p with load := sample0, perfmon_query := 1 }) ∧
    (function = ids.START ∨ function = ids.STOP ∨
        (function ≠ ids.INIT ∧ function ≠ ids.START ∧ function ≠ ids.STOP ∧
          function ≠ ids.QUERY) →
      nvgpu_pmu_perfmon_rpc_handler ids p function sample0 = p) := by
  obtain ⟨h1, h2, h3, h4, h5, h6⟩ := hids
  refine ⟨?_, ?_, ?_⟩
  · intro h
    simp [nvgpu_pmu_perfmon_rpc_handler, h]
  · intro h
    subst h
    simp [nvgpu_pmu_perfmon_rpc_handler, Ne.symm h3, Ne.symm h5, Ne.symm h6]
  · rintro (h | h | ⟨ha, hb, hc, hd⟩)
    · subst h
      simp [nvgpu_pmu_perfmon_rpc_handler, Ne.symm h1]
    · subst h
      simp [nvgpu_pmu_perfmon_rpc_handler, Ne.symm h2, Ne.symm h4]
    · simp [nvgpu_pmu_perfmon_rpc_handler, ha, hb, hc, hd]

/-- C10 (witness): the identifiers 0..3, a zeroed state, an unrecognised id 9. -/
theorem C10_rpc_handler_dispatch_witness :
    ((9 : Nat) = sample_rpc_ids.INIT →
      nvgpu_pmu_perfmon_rpc_handler sample_rpc_ids nvgpu_pmu_perfmon.zeroed 9 450
        = { nvgpu_pmu_perfmon.zeroed with perfmon_ready := true }) ∧
    ((9 : Nat) = sample_rpc_ids.QUERY →
      nvgpu_pmu_perfmon_rpc_handler sample_rpc_ids nvgpu_pmu_perfmon.zeroed 9 450
        = { nvgpu_pmu_perfmon.zeroed with load := 450, perfmon_query := 1 }) ∧
    ((9 : Nat) = sample_rpc_ids.START ∨ (9 : Nat) = sample_rpc_ids.STOP ∨
        ((9 : Nat) ≠ sample_rpc_ids.INIT ∧ (9 : Nat) ≠ sample_rpc_ids.START ∧
          (9 : Nat) ≠ sample_rpc_ids.STOP ∧ (9 : Nat) ≠ sample_rpc_ids.QUERY) →
      nvgpu_pmu_perfmon_rpc_handler sample_rpc_ids nvgpu_pmu_perfmon.zeroed 9 450
        = nvgpu_pmu_perfmon.zeroed) :=
  C10_rpc_handler_dispatch sample_rpc_ids nvgpu_pmu_perfmon.zeroed 9 450
    (by decide)

/-- C4: for every runlist id, count and buffer index, `tu104_runlist_hw_submit` writes the
base-lo and the base-hi register of the runlist if and only if `count != 0` (and no base
register of any runlist when `count = 0`); its last register write is always the submit
register with the length field of `count`. With `count = 0` the only write is the submit
register with length 0, and every base-address register keeps its value. -/
theorem C4_hw_submit (hw : hw_fifo_tu104) (g : gk20a_fifo) (runlist_id count buffer_index : Nat) :
    ((∃ v, (fifo_reg.fifo_runlist_base_lo_r runlist_id, v) ∈
        new_writes g (tu104_runlist_hw_submit hw g runlist_id count buffer_index)) ↔ count ≠ 0) ∧
    ((∃ v, (fifo_reg.fifo_runlist_base_hi_r runlist_id, v) ∈
        new_writes g (tu104_runlist_hw_submit hw g runlist_id count buffer_index)) ↔ count ≠ 0) ∧
    (new_writes g (tu104_runlist_hw_submit hw g runlist_id count buffer_index)).getLast?
      = some (fifo_reg.fifo_runlist_submit_r runlist_id, hw.fifo_runlist_submit_length_f count) ∧
    (tu104_runlist_hw_submit hw g runlist_id count buffer_index).regs
        (fifo_reg.fifo_runlist_submit_r runlist_id) = hw.fifo_runlist_submit_length_f count ∧
    (count = 0 →
      new_writes g (tu104_runlist_hw_submit hw g runlist_id count buffer_index)
        = [(fifo_reg.fifo_runlist_submit_r runlist_id, hw.fifo_runlist_submit_length_f 0)] ∧
      (∀ i, (tu104_runlist_hw_submit hw g runlist_id count buffer_index).regs
              (fifo_reg.fifo_runlist_base_lo_r i) = g.regs (fifo_reg.fifo_runlist_base_lo_r i) ∧
            (tu104_runlist_hw_submit hw g runlist_id count buffer_index).regs
              (fifo_reg.fifo_runlist_base_hi_r i) = g.regs (fifo_reg.fifo_runlist_base_hi_r i)) ∧
      (hw.fifo_runlist_submit_length_f 0 = 0 →
        (tu104_runlist_hw_submit hw g runlist_id count buffer_index).regs
          (fifo_reg.fifo_runlist_submit_r runlist_id) = 0)) := by
  by_cases hc : count = 0
  · subst hc
    simp [tu104_runlist_hw_submit, nvgpu_writel, new_writes]
  · simp [tu104_runlist_hw_submit, nvgpu_writel, new_writes, hc]

/-- C4 (witness): a zero-length submit of runlist 2 on the sample device. -/
theorem C4_hw_submit_witness :
    new_writes sample_fifo (tu104_runlist_hw_submit sample_hw sample_fifo 2 0 1)
      = [(fifo_reg.fifo_runlist_submit_r 2, 0)] ∧
    (tu104_runlist_hw_submit sample_hw sample_fifo 2 0 1).regs
      (fifo_reg.fifo_runlist_base_lo_r 2) = 7 ∧
    (tu104_runlist_hw_submit sample_hw sample_fifo 2 0 1).regs
      (fifo_reg.fifo_runlist_base_hi_r 2) = 7 ∧
    (tu104_runlist_hw_submit sample_hw sample_fifo 2 0 1).regs
      (fifo_reg.fifo_runlist_submit_r 2) = 0 :=
  have h := (C4_hw_submit sample_hw sample_fifo 2 0 1).2.2.2.2 rfl
  ⟨h.1, (h.2.1 2).1, (h.2.1 2).2, h.2.2 rfl⟩

/-- What a finished run of the polling loop tells: it left at some iteration `j`, every
earlier poll saw the bit set with the deadline not expired, and it left either on a clear
bit with 0 or on an expired deadline with `-ETIMEDOUT`. -/
theorem wait_loop_spec (hw : hw_fifo_tu104) (M : Nat) (env : wait_env) (id : Nat) :
    ∀ (fuel k delay : Nat) (ret : Int) (tr : List wait_action),
      tu104_runlist_wait_pending_loop hw M env id fuel k delay = some (ret, tr) →
      ∃ j, j < fuel ∧
        (∀ i, i < j → env.pending hw (k + i) ∧ env.timeout_expired (k + i) = 0) ∧
        ((¬ env.pending hw (k + j) ∧ ret = 0 ∧ count_reads tr = j + 1 ∧ count_sleeps tr = j ∧
            tr.getLast? = some (wait_action.nvgpu_readl (fifo_reg.fifo_runlist_submit_info_r id))) ∨
         (env.pending hw (k + j) ∧ env.timeout_expired (k + j) ≠ 0 ∧ ret = -ETIMEDOUT ∧
            count_reads tr = j + 1 ∧ count_sleeps tr = j + 1)) := by
  intro fuel
  induction fuel with
  | zero =>
    intro k delay ret tr h
    simp [tu104_runlist_wait_pending_loop] at h
  | succ n ih =>
    intro k delay ret tr h
    unfold tu104_runlist_wait_pending_loop at h
    by_cases hp : env.submit_info k &&& hw.fifo_runlist_submit_info_pending_true_f = 0
    · simp only [hp, if_true] at h
      injection h with h
      injection h with h1 h2
      subst h1; subst h2
      refine ⟨0, Nat.succ_pos n, fun i hi => absurd hi (Nat.not_lt_zero i), Or.inl ?_⟩
      refine ⟨?_, rfl, rfl, rfl, rfl⟩
      simp [wait_env.pending, hp]
    · simp only [hp, if_false] at h
      by_cases he : env.timeout_expired k = 0
      · simp only [he, if_true] at h
        cases hrec : tu104_runlist_wait_pending_loop hw M env id n (k + 1)
            (min (u32 (delay <<< 1)) M) with
        | none => simp [hrec] at h
        | some r =>
          obtain ⟨ret', rest⟩ := r
          simp only [hrec] at h
          injection h with h
          injection h with h1 h2
          subst h1; subst h2
          obtain ⟨j, hj, hpre, hcase⟩ := ih (k + 1) _ ret' rest hrec
          refine ⟨j + 1, Nat.succ_lt_succ hj, ?_, ?_⟩
          · intro i hi
            cases i with
            | zero => exact ⟨hp, he⟩
            | succ i =>
              have := hpre i (by omega)
              have e : k + (i + 1) = k + 1 + i := by omega
              rw [e]; exact this
          · have e : k + (j + 1) = k + 1 + j := by omega
            rw [e]
            rcases hcase with ⟨a, b, c, d, f⟩ | ⟨a, b, c, d, f⟩
            · refine Or.inl ⟨a, b, ?_, ?_, ?_⟩
              · simp [count_reads, wait_action.is_readl] at c ⊢
                omega
              · simp [count_sleeps, wait_action.is_usleep] at d ⊢
                omega
              · cases rest with
                | nil => simp at f
                | cons x xs => simpa using f
            · refine Or.inr ⟨a, b, c, ?_, ?_⟩
              · simp [count_reads, wait_action.is_readl] at d ⊢
                omega
              · simp [count_sleeps, wait_action.is_usleep] at f ⊢
                omega
      · simp only [he, if_false] at h
        injection h with h
        injection h with h1 h2
        subst h1; subst h2
        refine ⟨0, Nat.succ_pos n, fun i hi => absurd hi (Nat.not_lt_zero i), Or.inr ?_⟩
        exact ⟨hp, he, rfl, rfl, rfl⟩

/-- The polling loop returns once the fuel exceeds the first iteration at which the bit
is clear or the deadline is reported expired. -/
theorem wait_loop_returns (hw : hw_fifo_tu104) (M : Nat) (env : wait_env) (id : Nat) :
    ∀ (j fuel k delay : Nat), j < fuel →
      (¬ env.pending hw (k + j) ∨ env.timeout_expired (k + j) ≠ 0) →
      ∃ r, tu104_runlist_wait_pending_loop hw M env id fuel k delay = some r := by
  intro j
  induction j with
  | zero =>
    intro fuel k delay hf hex
    cases fuel with
    | zero => omega
    | succ n =>
      unfold tu104_runlist_wait_pending_loop
      by_cases hp : env.submit_info k &&& hw.fifo_runlist_submit_info_pending_true_f = 0
      · simp [hp]
      · have he : env.timeout_expired k ≠ 0 := by
          rcases hex with h | h
          · exact absurd hp h
          · exact h
        simp [hp, he]
  | succ j ih =>
    intro fuel k delay hf hex
    cases fuel with
    | zero => omega
    | succ n =>
      unfold tu104_runlist_wait_pending_loop
      by_cases hp : env.submit_info k &&& hw.fifo_runlist_submit_info_pending_true_f = 0
      · simp [hp]
      · by_cases he : env.timeout_expired k = 0
        · have e : k + (j + 1) = k + 1 + j := by omega
          rw [e] at hex
          obtain ⟨r, hr⟩ := ih n (k + 1) (min (u32 (delay <<< 1)) M) (by omega) hex
          simp [hp, he, hr]
        · simp [hp, he]

/-- C5: for every sequence of status-register reads and deadline-expiry answers,
`tu104_runlist_wait_pending` returns 0 at the first poll that sees the pending bit clear,
that read being its last action (`n + 1` reads and `n` sleeps for a clear bit at poll `n`);
it returns `-ETIMEDOUT` exactly when the deadline is reported expired after a poll up to
which every poll saw the bit set; and when `nvgpu_timeout_init` fails it returns that
error without any read. Enough fuel always yields the result. -/
theorem C5_wait_pending (hw : hw_fifo_tu104) (D M : Nat) (env : wait_env) (id : Nat) :
    (env.timeout_init_ret ≠ 0 →
      ∀ fuel, tu104_runlist_wait_pending hw D M env id fuel = some (env.timeout_init_ret, [])) ∧
    (env.timeout_init_ret = 0 →
      (∀ n, (∀ k, k < n → env.pending hw k ∧ env.timeout_expired k = 0) → ¬ env.pending hw n →
        ∀ fuel, n < fuel →
          ∃ tr, tu104_runlist_wait_pending hw D M env id fuel = some (0, tr) ∧
            count_reads tr = n + 1 ∧ count_sleeps tr = n ∧
            tr.getLast? =
              some (wait_action.nvgpu_readl (fifo_reg.fifo_runlist_submit_info_r id))) ∧
      (∀ m, (∀ k, k ≤ m → env.pending hw k) → (∀ k, k < m → env.timeout_expired k = 0) →
        env.timeout_expired m ≠ 0 →
        ∀ fuel, m < fuel →
          ∃ tr, tu104_runlist_wait_pending hw D M env id fuel = some (-ETIMEDOUT, tr) ∧
            count_reads tr = m + 1 ∧ count_sleeps tr = m + 1) ∧
      (∀ fuel ret tr, tu104_runlist_wait_pending hw D M env id fuel = some (ret, tr) →
        (ret = 0 ∨ ret = -ETIMEDOUT) ∧
        (ret = -ETIMEDOUT ↔
          ∃ m, (∀ k, k ≤ m → env.pending hw k) ∧ env.timeout_expired m ≠ 0))) := by
  have hne : (-ETIMEDOUT : Int) ≠ 0 := by decide
  refine ⟨?_, ?_⟩
  · intro h fuel
    simp [tu104_runlist_wait_pending, h]
  · intro h0
    have hrun : ∀ fuel, tu104_runlist_wait_pending hw D M env id fuel
        = tu104_runlist_wait_pending_loop hw M env id fuel 0 D := by
      intro fuel
      simp [tu104_runlist_wait_pending, h0]
    refine ⟨?_, ?_, ?_⟩
    · intro n hpre hclear fuel hf
      obtain ⟨⟨ret, tr⟩, hr⟩ := wait_loop_returns hw M env id n fuel 0 D hf
        (Or.inl (by simpa using hclear))
      obtain ⟨j, _, hj, hcase⟩ := wait_loop_spec hw M env id fuel 0 D ret tr hr
      simp only [Nat.zero_add] at hj hcase
      have hjn : j = n := by
        rcases Nat.lt_trichotomy j n with hlt | heq | hgt
        · rcases hcase with ⟨a, _⟩ | ⟨_, b, _⟩
          · exact absurd (hpre j hlt).1 a
          · exact absurd (hpre j hlt).2 b
        · exact heq
        · exact absurd (hj n hgt).1 hclear
      subst hjn
      rcases hcase with ⟨_, b, c, d, e⟩ | ⟨a, _⟩
      · subst b
        exact ⟨tr, by rw [hrun, hr], c, d, e⟩
      · exact absurd a hclear
    · intro m hpend hnexp hexp fuel hf
      obtain ⟨⟨ret, tr⟩, hr⟩ := wait_loop_returns hw M env id m fuel 0 D hf
        (Or.inr (by simpa using hexp))
      obtain ⟨j, _, hj, hcase⟩ := wait_loop_spec hw M env id fuel 0 D ret tr hr
      simp only [Nat.zero_add] at hj hcase
      have hjm : j = m := by
        rcases Nat.lt_trichotomy j m with hlt | heq | hgt
        · rcases hcase with ⟨a, _⟩ | ⟨_, b, _⟩
          · exact absurd (hpend j (Nat.le_of_lt hlt)) a
          · exact absurd (hnexp j hlt) b
        · exact heq
        · exact absurd (hj m hgt).2 hexp
      subst hjm
      rcases hcase with ⟨a, _⟩ | ⟨_, _, c, d, e⟩
      · exact absurd (hpend j (Nat.le_refl j)) a
      · subst c
        exact ⟨tr, by rw [hrun, hr], d, e⟩
    · intro fuel ret tr hr
      rw [hrun] at hr
      obtain ⟨j, _, hj, hcase⟩ := wait_loop_spec hw M env id fuel 0 D ret tr hr
      simp only [Nat.zero_add] at hj hcase
      rcases hcase with ⟨a, b, _⟩ | ⟨a, b, c, _⟩
      · refine ⟨Or.inl b, ?_⟩
        constructor
        · intro hret
          rw [b] at hret
          exact absurd hret.symm hne
        · rintro ⟨m, hm, hexp⟩
          exfalso
          rcases Nat.lt_or_ge m j with hlt | hge
          · exact hexp (hj m hlt).2
          · exact a (hm j hge)
      · refine ⟨Or.inr c, ?_⟩
        constructor
        · intro _
          refine ⟨j, ?_, b⟩
          intro k hk
          rcases Nat.lt_or_ge k j with hlt | hge
          · exact (hj k hlt).1
          · have : k = j := by omega
            rw [this]; exact a
        · intro _
          exact c

/-- C5 (witness): with the bit clear at the third poll the wait returns 0 after three
reads and two sleeps; with the deadline expired after the second poll it returns
`-ETIMEDOUT` after two reads and two sleeps. -/
theorem C5_wait_pending_witness :
    (∃ tr, tu104_runlist_wait_pending sample_hw 10 200 clears_at_2 0 5 = some (0, tr) ∧
      count_reads tr = 2 + 1 ∧ count_sleeps tr = 2 ∧
      tr.getLast? = some (wait_action.nvgpu_readl (fifo_reg.fifo_runlist_submit_info_r 0))) ∧
    (∃ tr, tu104_runlist_wait_pending sample_hw 10 200 expires_at_1 0 5
        = some (-ETIMEDOUT, tr) ∧
      count_reads tr = 1 + 1 ∧ count_sleeps tr = 1 + 1) :=
  ⟨((C5_wait_pending sample_hw 10 200 clears_at_2 0).2 rfl).1 2
      (by intro k hk; interval_cases k <;> decide) (by decide) 5 (by decide),
   ((C5_wait_pending sample_hw 10 200 expires_at_1 0).2 rfl).2.1 1
      (by intro k hk; interval_cases k <;> decide) (by intro k hk; interval_cases k; decide)
      (by decide) 5 (by decide)⟩

/-- C6: `get_perfmon_id` returns `PMU_UNIT_PERFMON` when `arch + impl` (the `u32` sum
`ver`) is GK20A, GM20B or GM20B_B, `PMU_UNIT_PERFMON_T18X` when it is GP10B or GV11B, and
`PMU_UNIT_INVALID` for every other device identity; for the five supported identities the
result is not `PMU_UNIT_INVALID`. -/
theorem C6_get_perfmon_id (c : perfmon_consts) (arch impl : Nat)
    (hlab : c.gpuids_distinct) (hunits : c.units_valid) :
    ((u32 (arch + impl) = c.GK20A_GPUID_GK20A ∨ u32 (arch + impl) = c.GK20A_GPUID_GM20B ∨
        u32 (arch + impl) = c.GK20A_GPUID_GM20B_B) →
      get_perfmon_id c arch impl = c.PMU_UNIT_PERFMON) ∧
    ((u32 (arch + impl) = c.NVGPU_GPUID_GP10B ∨ u32 (arch + impl) = c.NVGPU_GPUID_GV11B) →
      get_perfmon_id c arch impl = c.PMU_UNIT_PERFMON_T18X) ∧
    (¬ c.supported (u32 (arch + impl)) → get_perfmon_id c arch impl = c.PMU_UNIT_INVALID) ∧
    (c.supported (u32 (arch + impl)) → get_perfmon_id c arch impl ≠ c.PMU_UNIT_INVALID) := by
  obtain ⟨hu1, hu2⟩ := hunits
  simp only [perfmon_consts.gpuids_distinct, List.nodup_cons, List.mem_cons, List.mem_singleton,
    List.not_mem_nil, not_or, List.nodup_nil, and_true, or_false, not_false_eq_true] at hlab
  obtain ⟨⟨a1, a2, a3, a4⟩, ⟨b1, b2, b3⟩, ⟨d1, d2⟩, e1⟩ := hlab
  have first : (u32 (arch + impl) = c.GK20A_GPUID_GK20A ∨
      u32 (arch + impl) = c.GK20A_GPUID_GM20B ∨ u32 (arch + impl) = c.GK20A_GPUID_GM20B_B) →
      get_perfmon_id c arch impl = c.PMU_UNIT_PERFMON := by
    intro h
    simp only [get_perfmon_id]
    rw [if_pos h]
  have second : (u32 (arch + impl) = c.NVGPU_GPUID_GP10B ∨
      u32 (arch + impl) = c.NVGPU_GPUID_GV11B) →
      get_perfmon_id c arch impl = c.PMU_UNIT_PERFMON_T18X := by
    intro h
    have hn : ¬ (u32 (arch + impl) = c.GK20A_GPUID_GK20A ∨
        u32 (arch + impl) = c.GK20A_GPUID_GM20B ∨ u32 (arch + impl) = c.GK20A_GPUID_GM20B_B) := by
      rintro (h1 | h1 | h1) <;> rcases h with h | h <;> rw [h] at h1
      · exact a3 h1.symm
      · exact a4 h1.symm
      · exact b2 h1.symm
      · exact b3 h1.symm
      · exact d1 h1.symm
      · exact d2 h1.symm
    simp only [get_perfmon_id]
    rw [if_neg hn, if_pos h]
  refine ⟨first, second, ?_, ?_⟩
  · intro h
    simp only [perfmon_consts.supported, not_or] at h
    obtain ⟨n1, n2, n3, n4, n5⟩ := h
    simp [get_perfmon_id, n1, n2, n3, n4, n5]
  · intro h
    rcases h with h | h | h | h | h
    · rw [first (Or.inl h)]; exact hu1
    · rw [first (Or.inr (Or.inl h))]; exact hu1
    · rw [first (Or.inr (Or.inr h))]; exact hu1
    · rw [second (Or.inl h)]; exact hu2
    · rw [second (Or.inr h)]; exact hu2

/-- C6 (witness): with the sample constants, architecture `0x130` and implementation `0xB`
(GP10B) resolve to `PMU_UNIT_PERFMON_T18X`. -/
theorem C6_get_perfmon_id_witness :
    get_perfmon_id sample_consts 0x130 0xB = sample_consts.PMU_UNIT_PERFMON_T18X ∧
    get_perfmon_id sample_consts 0x130 0xB ≠ sample_consts.PMU_UNIT_INVALID :=
  have h := C6_get_perfmon_id sample_consts 0x130 0xB (by decide) (by decide)
  ⟨h.2.1 (Or.inl (by decide)), h.2.2.2 (by decide)⟩

/-- C7: `nvgpu_pmu_initialize_perfmon` is idempotent. When an instance already exists the
call returns 0, calls `nvgpu_kzalloc` zero times and leaves the instance unchanged; so a
second call after a successful first one returns 0 and ends in the state the first call
produced, whatever the allocator would answer. -/
theorem C7_initialize_idempotent (kzalloc_ok kzalloc_ok2 : Bool) (p : nvgpu_pmu_perfmon) :
    nvgpu_pmu_initialize_perfmon kzalloc_ok (some p) = (0, some p, 0) ∧
    nvgpu_pmu_initialize_perfmon true none = (0, some nvgpu_pmu_perfmon.zeroed, 1) ∧
    nvgpu_pmu_initialize_perfmon kzalloc_ok2 (nvgpu_pmu_initialize_perfmon true none).2.1
      = (0, (nvgpu_pmu_initialize_perfmon true none).2.1, 0) := by
  refine ⟨rfl, rfl, rfl⟩

/-- A call through the HAL slot `pmu_perfmon_start_sampling` returns (when the size
assertion of the command variant holds), logs itself exactly once, posts at most one
command, and leaves the perfmon state untouched. -/
theorem start_op_frame (c : perfmon_consts) (env : cmd_env) (g : gk20a)
    (hassert : g.start_op = perfmon_start_op.nvgpu_pmu_perfmon_start_sampling →
      u64 (c.PMU_CMD_HDR_SIZE + env.cmd_start_size) ≤ U8_MAX) :
    ∃ ret g', pmu_perfmon_start_sampling_op c env g = some (ret, g') ∧
      g'.pmu_perfmon = g.pmu_perfmon ∧
      (new_actions g g').countP pmu_action.is_start_call = 1 ∧
      (new_actions g g').head? = some pmu_action.pmu_perfmon_start_sampling ∧
      (new_actions g g').countP pmu_action.is_cmd_post ≤ 1 := by
  unfold pmu_perfmon_start_sampling_op
  cases hop : g.start_op with
  | nvgpu_pmu_perfmon_start_sampling =>
    have hs := hassert hop
    simp only [gk20a.log, hop]
    unfold nvgpu_pmu_perfmon_start_sampling
    simp only [gk20a.log, hs, if_true]
    split_ifs
    all_goals
      refine ⟨_, _, rfl, rfl, ?_, ?_, ?_⟩ <;>
        simp [new_actions, pmu_action.is_start_call, pmu_action.is_cmd_post]
  | nvgpu_pmu_perfmon_start_sampling_rpc =>
    simp only [gk20a.log, hop]
    unfold nvgpu_pmu_perfmon_start_sampling_rpc
    simp only [gk20a.log]
    split_ifs
    all_goals
      refine ⟨_, _, rfl, rfl, ?_, ?_, ?_⟩ <;>
        simp [new_actions, pmu_action.is_start_call, pmu_action.is_cmd_post]

/-- What a call through the HAL slot `pmu_perfmon_start_sampling` issues: never more than
one START; exactly one, whose status is returned, when perfmon is enabled and (for the
command variant) the unit and the payload offset are resolved. -/
theorem start_op_posts (c : perfmon_consts) (env : cmd_env) (g : gk20a)
    (hassert : g.start_op = perfmon_start_op.nvgpu_pmu_perfmon_start_sampling →
      u64 (c.PMU_CMD_HDR_SIZE + env.cmd_start_size) ≤ U8_MAX) :
    ∃ ret g', pmu_perfmon_start_sampling_op c env g = some (ret, g') ∧
      (new_actions g g').countP (pmu_action.is_start_post c) ≤ 1 ∧
      (g.perfmon_enabled = true →
        g.start_op = perfmon_start_op.nvgpu_pmu_perfmon_start_sampling_rpc →
        (new_actions g g').countP (pmu_action.is_start_post c) = 1 ∧ ret = env.rpc_status) ∧
      (g.perfmon_enabled = true →
        g.start_op = perfmon_start_op.nvgpu_pmu_perfmon_start_sampling →
        get_perfmon_id c g.gpu_arch g.gpu_impl ≠ c.PMU_UNIT_INVALID →
        env.start_offset_status = 0 →
        (new_actions g g').countP (pmu_action.is_start_post c) = 1 ∧
          ret = env.cmd_post_status) := by
  unfold pmu_perfmon_start_sampling_op
  cases hop : g.start_op with
  | nvgpu_pmu_perfmon_start_sampling =>
    have hs := hassert hop
    simp only [gk20a.log, hop]
    unfold nvgpu_pmu_perfmon_start_sampling
    simp only [gk20a.log, hs, if_true]
    split_ifs with h1 h2 h3 h4
    · refine ⟨_, _, rfl, ?_, ?_, ?_⟩
      · simp [new_actions, pmu_action.is_start_post]
      · intro _ hne
        simp at hne
      · intro he
        simp [he] at h1
    · refine ⟨_, _, rfl, ?_, ?_, ?_⟩
      · simp [new_actions, pmu_action.is_start_post]
      · intro _ hne
        simp at hne
      · intro _ _ hu
        exact absurd h2 hu
    · refine ⟨_, _, rfl, ?_, ?_, ?_⟩
      · simp [new_actions, pmu_action.is_start_post]
      · intro _ hne
        simp at hne
      · intro _ _ _ ho
        exact absurd ho h3
    · refine ⟨_, _, rfl, ?_, ?_, ?_⟩
      · simp [new_actions, pmu_action.is_start_post]
      · intro _ hne
        simp at hne
      · intro _ _ _ _
        refine ⟨?_, rfl⟩
        simp [new_actions, pmu_action.is_start_post]
    · refine ⟨_, _, rfl, ?_, ?_, ?_⟩
      · simp [new_actions, pmu_action.is_start_post]
      · intro _ hne
        simp at hne
      · intro _ _ _ _
        refine ⟨?_, ?_⟩
        · simp [new_actions, pmu_action.is_start_post]
        · have h0 : env.cmd_post_status = 0 := by
            by_contra hne
            exact h4 hne
          rw [h0]
  | nvgpu_pmu_perfmon_start_sampling_rpc =>
    simp only [gk20a.log, hop]
    unfold nvgpu_pmu_perfmon_start_sampling_rpc
    simp only [gk20a.log]
    split_ifs with h1
    · refine ⟨_, _, rfl, ?_, ?_, ?_⟩
      · simp [new_actions, pmu_action.is_start_post]
      · intro he
        simp [he] at h1
      · intro _ hne
        simp at hne
    · refine ⟨_, _, rfl, ?_, ?_, ?_⟩
      · simp [new_actions, pmu_action.is_start_post]
      · intro _ _
        refine ⟨?_, rfl⟩
        simp [new_actions, pmu_action.is_start_post]
      · intro _ hne
        simp at hne

/-- C8: for every perfmon state with sampling enabled and every INCREASE or DECREASE event,
`nvgpu_pmu_handle_perfmon_event` increments `perfmon_events_cnt` by exactly 1 (the `u64`
`++`, the same counter for both directions), changes no other field of the perfmon state,
and re-issues START exactly once, returning the status of that START: the start-sampling
operation is called once and its result is the result of the handler; it never issues more
than one START, and it issues exactly one START command or RPC, whose status is returned,
when perfmon is enabled and the command's unit and payload offset are resolved. -/
theorem C8_handle_event (c : perfmon_consts) (env : cmd_env) (g : gk20a) (msg_type : Nat)
    (hen : g.pmu_perfmon.perfmon_sampling_enabled = true)
    (hmsg : msg_type = c.PMU_PERFMON_MSG_ID_INCREASE_EVENT ∨
      msg_type = c.PMU_PERFMON_MSG_ID_DECREASE_EVENT)
    (hassert : g.start_op = perfmon_start_op.nvgpu_pmu_perfmon_start_sampling →
      u64 (c.PMU_CMD_HDR_SIZE + env.cmd_start_size) ≤ U8_MAX) :
    ∃ ret g', nvgpu_pmu_handle_perfmon_event c env g msg_type = some (ret, g') ∧
      g'.pmu_perfmon = { g.pmu_perfmon with
        perfmon_events_cnt := (g.pmu_perfmon.perfmon_events_cnt + 1) % 2 ^ 64 } ∧
      (g.pmu_perfmon.perfmon_events_cnt + 1 < 2 ^ 64 →
        g'.pmu_perfmon.perfmon_events_cnt = g.pmu_perfmon.perfmon_events_cnt + 1) ∧
      (new_actions g g').countP pmu_action.is_start_call = 1 ∧
      pmu_perfmon_start_sampling_op c env { g with pmu_perfmon := { g.pmu_perfmon with
        perfmon_events_cnt := (g.pmu_perfmon.perfmon_events_cnt + 1) % 2 ^ 64 } }
        = some (ret, g') ∧
      (new_actions g g').countP (pmu_action.is_start_post c) ≤ 1 ∧
      (g.perfmon_enabled = true →
        g.start_op = perfmon_start_op.nvgpu_pmu_perfmon_start_sampling_rpc →
        (new_actions g g').countP (pmu_action.is_start_post c) = 1 ∧ ret = env.rpc_status) ∧
      (g.perfmon_enabled = true →
        g.start_op = perfmon_start_op.nvgpu_pmu_perfmon_start_sampling →
        get_perfmon_id c g.gpu_arch g.gpu_impl ≠ c.PMU_UNIT_INVALID →
        env.start_offset_status = 0 →
        (new_actions g g').countP (pmu_action.is_start_post c) = 1 ∧
          ret = env.cmd_post_status) := by
  have key : nvgpu_pmu_handle_perfmon_event c env g msg_type =
      pmu_perfmon_start_sampling_op c env { g with pmu_perfmon := { g.pmu_perfmon with
        perfmon_events_cnt := (g.pmu_perfmon.perfmon_events_cnt + 1) % 2 ^ 64 } } := by
    unfold nvgpu_pmu_handle_perfmon_event
    by_cases h1 : msg_type = c.PMU_PERFMON_MSG_ID_INCREASE_EVENT
    · simp [h1, hen, u64]
    · have h2 : msg_type = c.PMU_PERFMON_MSG_ID_DECREASE_EVENT := by
        rcases hmsg with h | h
        · exact absurd h h1
        · exact h
      simp [h1, h2, hen, u64]
  obtain ⟨ret, g', hop, hp, hcnt, _, _⟩ := start_op_frame c env
    { g with pmu_perfmon := { g.pmu_perfmon with
        perfmon_events_cnt := (g.pmu_perfmon.perfmon_events_cnt + 1) % 2 ^ 64 } } hassert
  obtain ⟨ret2, g2, hop2, hle, hrpc, hcmd⟩ := start_op_posts c env
    { g with pmu_perfmon := { g.pmu_perfmon with
        perfmon_events_cnt := (g.pmu_perfmon.perfmon_events_cnt + 1) % 2 ^ 64 } } hassert
  rw [hop] at hop2
  injection hop2 with hop2
  injection hop2 with hr hg
  subst hr
  subst hg
  refine ⟨ret, g', by rw [key, hop], hp, ?_, hcnt, hop, hle, hrpc, hcmd⟩
  intro hlt
  rw [hp]
  exact Nat.mod_eq_of_lt hlt

/-- C8 (witness): an INCREASE event on a sampling GP10B device with 41 events counted: the
counter becomes 42, nothing else in the perfmon state changes, START is called once and
posts one START command, whose status 0 is returned. -/
theorem C8_handle_event_witness :
    ∃ ret g', nvgpu_pmu_handle_perfmon_event sample_consts sample_cmd_env
        (sample_gk20a 0x130 0xB (sampling_state 41)) 0 = some (ret, g') ∧
      g'.pmu_perfmon = sampling_state 42 ∧
      (new_actions (sample_gk20a 0x130 0xB (sampling_state 41)) g').countP
        pmu_action.is_start_call = 1 ∧
      (new_actions (sample_gk20a 0x130 0xB (sampling_state 41)) g').countP
        (pmu_action.is_start_post sample_consts) = 1 ∧
      ret = sample_cmd_env.cmd_post_status :=
  have ⟨ret, g', h1, h2, _, h4, _, _, _, h8⟩ :=
    C8_handle_event sample_consts sample_cmd_env (sample_gk20a 0x130 0xB (sampling_state 41)) 0
      rfl (Or.inl rfl) (fun _ => by decide)
  ⟨ret, g', h1, h2, h4, (h8 rfl rfl (by decide) rfl).1, (h8 rfl rfl (by decide) rfl).2⟩

/-- C9 (counterexample): on a device of unknown version (`arch + impl = 0`) whose perfmon
state is ready and has no sample buffer, `nvgpu_pmu_init_perfmon` returns `-EINVAL` and
posts nothing, but the state is not as before: `perfmon_ready` has been cleared and
`sample_buffer` holds the freshly allocated `0x400`. -/
theorem C9_init_failure_mutates :
    (sample_gk20a 0 0 ready_unallocated).perfmon_enabled = true ∧
    get_perfmon_id sample_consts 0 0 = sample_consts.PMU_UNIT_INVALID ∧
    (sample_gk20a 0 0 ready_unallocated).pmu_perfmon.perfmon_ready = true ∧
    (sample_gk20a 0 0 ready_unallocated).pmu_perfmon.sample_buffer = 0 ∧
    (nvgpu_pmu_init_perfmon sample_consts sample_cmd_env (sample_gk20a 0 0 ready_unallocated)).map
      (fun r => (r.1, r.2.pmu_perfmon.perfmon_ready, r.2.pmu_perfmon.sample_buffer,
        (new_actions (sample_gk20a 0 0 ready_unallocated) r.2).countP pmu_action.is_cmd_post))
      = some (-EINVAL, false, 0x400, 0) ∧
    (nvgpu_pmu_init_perfmon sample_consts sample_cmd_env (sample_gk20a 0 0 ready_unallocated)).map
      (fun r => r.2.pmu_perfmon) ≠ some (sample_gk20a 0 0 ready_unallocated).pmu_perfmon := by
  decide

/-- C9 (amended): when perfmon is enabled and the destination unit cannot be resolved for
the device identity, or payload-offset resolution fails, `nvgpu_pmu_init_perfmon` returns
a non-zero error and posts no command; of the perfmon state it changes exactly the
readiness flag, which it clears, and the sample-buffer handle, which it sets to the newly
allocated buffer if none existed. (The two `nvgpu_assert`s on the way are assumed to
hold.) -/
theorem C9_init_failure (c : perfmon_consts) (env : cmd_env) (g : gk20a)
    (hen : g.perfmon_enabled = true)
    (hfail : get_perfmon_id c g.gpu_arch g.gpu_impl = c.PMU_UNIT_INVALID ∨
      env.init_offset_status ≠ 0)
    (halloc : g.pmu_perfmon.sample_buffer = 0 → env.dmem_alloc ≤ U32_MAX)
    (hsize : get_perfmon_id c g.gpu_arch g.gpu_impl ≠ c.PMU_UNIT_INVALID →
      u64 (c.PMU_CMD_HDR_SIZE + env.cmd_init_size) ≤ U8_MAX) :
    ∃ ret g', nvgpu_pmu_init_perfmon c env g = some (ret, g') ∧ ret ≠ 0 ∧
      (new_actions g g').countP pmu_action.is_cmd_post = 0 ∧
      g'.pmu_perfmon = { g.pmu_perfmon with
        perfmon_ready := false,
        sample_buffer := if g.pmu_perfmon.sample_buffer = 0 then u32 env.dmem_alloc
          else g.pmu_perfmon.sample_buffer } := by
  have hm : (-ENOMEM : Int) ≠ 0 := by decide
  have hi : (-EINVAL : Int) ≠ 0 := by decide
  unfold nvgpu_pmu_init_perfmon
  simp only [hen, gk20a.log, Bool.not_true, Bool.false_eq_true, if_false]
  by_cases hsb : g.pmu_perfmon.sample_buffer = 0
  · have ha := halloc hsb
    simp only [hsb, ha, if_true]
    by_cases hz : u32 env.dmem_alloc = 0
    · simp only [hz, if_true]
      refine ⟨_, _, rfl, hm, ?_, ?_⟩
      · simp [new_actions, pmu_action.is_cmd_post]
      · simp [hsb]
    · simp only [hz, if_false]
      by_cases hu : get_perfmon_id c g.gpu_arch g.gpu_impl = c.PMU_UNIT_INVALID
      · simp only [hu, if_true]
        refine ⟨_, _, rfl, hi, ?_, ?_⟩
        · simp [new_actions, pmu_action.is_cmd_post]
        · simp
      · have hs := hsize hu
        have ho : env.init_offset_status ≠ 0 := by
          rcases hfail with h | h
          · exact absurd h hu
          · exact h
        simp only [hu, hs, ho, if_true, if_false, ne_eq, not_false_eq_true]
        refine ⟨_, _, rfl, ho, ?_, ?_⟩
        · simp [new_actions, pmu_action.is_cmd_post]
        · simp
  · simp only [hsb, if_false]
    by_cases hu : get_perfmon_id c g.gpu_arch g.gpu_impl = c.PMU_UNIT_INVALID
    · simp only [hu, if_true]
      refine ⟨_, _, rfl, hi, ?_, ?_⟩
      · simp [new_actions, pmu_action.is_cmd_post]
      · simp
    · have hs := hsize hu
      have ho : env.init_offset_status ≠ 0 := by
        rcases hfail with h | h
        · exact absurd h hu
        · exact h
      simp only [hu, hs, ho, if_true, if_false, ne_eq, not_false_eq_true]
      refine ⟨_, _, rfl, ho, ?_, ?_⟩
      · simp [new_actions, pmu_action.is_cmd_post]
      · simp

/-- C9 (witness): the unknown version `arch + impl = 0` on a ready device without a sample
buffer. -/
theorem C9_init_failure_witness :
    ∃ ret g', nvgpu_pmu_init_perfmon sample_consts sample_cmd_env
        (sample_gk20a 0 0 ready_unallocated) = some (ret, g') ∧ ret ≠ 0 ∧
      (new_actions (sample_gk20a 0 0 ready_unallocated) g').countP pmu_action.is_cmd_post = 0 ∧
      g'.pmu_perfmon = { (sample_gk20a 0 0 ready_unallocated).pmu_perfmon with
        perfmon_ready := false,
        sample_buffer :=
          if (sample_gk20a 0 0 ready_unallocated).pmu_perfmon.sample_buffer = 0
          then u32 sample_cmd_env.dmem_alloc
          else (sample_gk20a 0 0 ready_unallocated).pmu_perfmon.sample_buffer } :=
  C9_init_failure sample_consts sample_cmd_env (sample_gk20a 0 0 ready_unallocated)
    rfl (Or.inl (by decide)) (fun _ => by decide) (fun h => absurd (by decide) h)

/-- What the four perfmon RPC operations return: `start`, `stop` and `get_samples` hand
back the status of `PMU_RPC_EXECUTE` when perfmon is enabled, `init` returns 0 whatever the
status was. -/
theorem rpc_status_returned (c : perfmon_consts) (env : cmd_env) (g : gk20a)
    (ids : perfmon_rpc_ids) (lenv : load_env) (p : nvgpu_pmu_perfmon) :
    (nvgpu_pmu_init_perfmon_rpc c env g).1 = 0 ∧
    (nvgpu_pmu_perfmon_start_sampling_rpc c env g).1
      = (if g.perfmon_enabled then env.rpc_status else 0) ∧
    (nvgpu_pmu_perfmon_stop_sampling_rpc c env g).1
      = (if g.perfmon_enabled then env.rpc_status else 0) ∧
    (nvgpu_pmu_perfmon_get_samples_rpc ids lenv p).1
      = (if lenv.perfmon_enabled then lenv.rpc_status else 0) := by
  refine ⟨?_, ?_, ?_, ?_⟩
  · unfold nvgpu_pmu_init_perfmon_rpc
    split_ifs <;> rfl
  · unfold nvgpu_pmu_perfmon_start_sampling_rpc
    cases g.perfmon_enabled <;> simp
  · unfold nvgpu_pmu_perfmon_stop_sampling_rpc
    cases g.perfmon_enabled <;> simp
  · unfold nvgpu_pmu_perfmon_get_samples_rpc
    cases lenv.perfmon_enabled <;> simp

/-- C11 (code at the failing input): with perfmon enabled and `PMU_RPC_EXECUTE` failing
with `-ETIMEDOUT`, `nvgpu_pmu_init_perfmon_rpc` returns 0, while
`nvgpu_pmu_perfmon_start_sampling_rpc`, `nvgpu_pmu_perfmon_stop_sampling_rpc` and
`nvgpu_pmu_perfmon_get_samples_rpc` return `-ETIMEDOUT`. -/
theorem C11_init_rpc_returns_zero :
    (sample_gk20a 0x150 0xB nvgpu_pmu_perfmon.zeroed).perfmon_enabled = true ∧
    failing_rpc_cmd_env.rpc_status = -ETIMEDOUT ∧
    failing_rpc_cmd_env.rpc_status ≠ 0 ∧
    (nvgpu_pmu_init_perfmon_rpc sample_consts failing_rpc_cmd_env
      (sample_gk20a 0x150 0xB nvgpu_pmu_perfmon.zeroed)).1 = 0 ∧
    (nvgpu_pmu_perfmon_start_sampling_rpc sample_consts failing_rpc_cmd_env
      (sample_gk20a 0x150 0xB nvgpu_pmu_perfmon.zeroed)).1 = -ETIMEDOUT ∧
    (nvgpu_pmu_perfmon_stop_sampling_rpc sample_consts failing_rpc_cmd_env
      (sample_gk20a 0x150 0xB nvgpu_pmu_perfmon.zeroed)).1 = -ETIMEDOUT ∧
    (nvgpu_pmu_perfmon_get_samples_rpc sample_rpc_ids failing_rpc_load_env
      nvgpu_pmu_perfmon.zeroed).1 = -ETIMEDOUT := by
  decide

/-- C14 (code at the failing input): on a ready device with last sample 450, shadow 7 and
average 100, a QUERY RPC that fails with `-ETIMEDOUT` makes `nvgpu_pmu_load_update` return
0 and overwrite `load_shadow` with 45 and `load_avg` with 94; the failing DMEM copy on the
direct path returns `-ETIMEDOUT` and leaves the state as it was. -/
theorem C14_rpc_failure_ignored :
    ready_loaded.perfmon_ready = true ∧
    (nvgpu_pmu_perfmon_get_samples_rpc sample_rpc_ids failing_rpc_load_env ready_loaded).1
      = -ETIMEDOUT ∧
    (nvgpu_pmu_load_update sample_rpc_ids failing_rpc_load_env ready_loaded).1 = 0 ∧
    (nvgpu_pmu_load_update sample_rpc_ids failing_rpc_load_env ready_loaded).2.load_shadow
      = 45 ∧
    (nvgpu_pmu_load_update sample_rpc_ids failing_rpc_load_env ready_loaded).2.load_avg = 94 ∧
    ready_loaded.load_shadow = 7 ∧ ready_loaded.load_avg = 100 ∧
    nvgpu_pmu_load_update sample_rpc_ids failing_dmem_load_env ready_loaded
      = (-ETIMEDOUT, ready_loaded) := by
  decide

/-- C15: for every power state, every presence or absence of the idle-counter operations
and every busy, total and interrupt-status value (the product taken modulo `2^64`, the
quotient truncated to 32 bits), `nvgpu_pmu_busy_cycles_norm` returns 0 and the norm it
reports does not exceed `PMU_BUSY_CYCLES_NORM_MAX`. -/
theorem C15_busy_norm_bounded (NORM_MAX : Nat) (env : busy_env) :
    (nvgpu_pmu_busy_cycles_norm NORM_MAX env).ret = 0 ∧
    (nvgpu_pmu_busy_cycles_norm NORM_MAX env).norm ≤ NORM_MAX := by
  unfold nvgpu_pmu_busy_cycles_norm
  split_ifs with h1 h2 h3 h4
  · exact ⟨rfl, Nat.zero_le _⟩
  · exact ⟨rfl, Nat.le_refl _⟩
  · exact ⟨rfl, Nat.le_refl _⟩
  · exact ⟨rfl, Nat.le_refl _⟩
  · refine ⟨rfl, ?_⟩
    have ht : 0 < env.total_cycles := by
      rcases Nat.eq_zero_or_pos env.total_cycles with h0 | h0
      · exact absurd (Or.inl h0) h4
      · exact h0
    have hb : env.busy_cycles ≤ env.total_cycles := by
      by_contra hlt
      exact h4 (Or.inr (by omega))
    show u32 (u64 (env.busy_cycles * NORM_MAX) / env.total_cycles) ≤ NORM_MAX
    unfold u32 u64
    calc (env.busy_cycles * NORM_MAX % 2 ^ 64 / env.total_cycles) % 2 ^ 32
        ≤ env.busy_cycles * NORM_MAX % 2 ^ 64 / env.total_cycles := Nat.mod_le _ _
      _ ≤ NORM_MAX := by
          apply Nat.div_le_of_le_mul
          calc env.busy_cycles * NORM_MAX % 2 ^ 64 ≤ env.busy_cycles * NORM_MAX := Nat.mod_le _ _
            _ ≤ env.total_cycles * NORM_MAX := Nat.mul_le_mul_right _ hb

/-- Every command that `nvgpu_pmu_init_perfmon` posts goes to the low-priority queue. -/
theorem init_perfmon_posts_lpq (c : perfmon_consts) (env : cmd_env) (g g' : gk20a) (ret : Int)
    (h : nvgpu_pmu_init_perfmon c env g = some (ret, g')) :
    ∀ q, q ∈ posted_queues (new_actions g g') → q = PMU_COMMAND_QUEUE_LPQ := by
  unfold nvgpu_pmu_init_perfmon at h
  simp only [gk20a.log] at h
  by_cases he : g.perfmon_enabled = true
  · by_cases hsb : g.pmu_perfmon.sample_buffer = 0
    · by_cases ha : env.dmem_alloc ≤ U32_MAX
      · simp only [he, hsb, ha, Bool.not_true, Bool.false_eq_true, if_true, if_false] at h
        split_ifs at h
        all_goals
          injection h with h
          injection h with _ h
          subst h
          simp [new_actions, posted_queues]
      · simp [he, hsb, ha] at h
    · simp only [he, hsb, Bool.not_true, Bool.false_eq_true, if_true, if_false] at h
      split_ifs at h
      all_goals
        injection h with h
        injection h with _ h
        subst h
        simp [new_actions, posted_queues]
  · simp only [he, Bool.not_eq_true] at h
    simp at he
    simp only [he, Bool.not_false, if_true] at h
    injection h with h
    injection h with _ h
    subst h
    simp [new_actions, posted_queues]

/-- Every command that `nvgpu_pmu_perfmon_start_sampling` posts goes to the low-priority
queue. -/
theorem start_sampling_posts_lpq (c : perfmon_consts) (env : cmd_env) (g g' : gk20a) (ret : Int)
    (h : nvgpu_pmu_perfmon_start_sampling c env g = some (ret, g')) :
    ∀ q, q ∈ posted_queues (new_actions g g') → q = PMU_COMMAND_QUEUE_LPQ := by
  unfold nvgpu_pmu_perfmon_start_sampling at h
  simp only [gk20a.log] at h
  split_ifs at h
  all_goals
    injection h with h
    injection h with _ h
    subst h
    simp [new_actions, posted_queues]

/-- Every command that `nvgpu_pmu_perfmon_stop_sampling` posts goes to the low-priority
queue. -/
theorem stop_sampling_posts_lpq (c : perfmon_consts) (env : cmd_env) (g g' : gk20a) (ret : Int)
    (h : nvgpu_pmu_perfmon_stop_sampling c env g = some (ret, g')) :
    ∀ q, q ∈ posted_queues (new_actions g g') → q = PMU_COMMAND_QUEUE_LPQ := by
  unfold nvgpu_pmu_perfmon_stop_sampling at h
  simp only [gk20a.log] at h
  split_ifs at h
  all_goals
    injection h with h
    injection h with _ h
    subst h
    simp [new_actions, posted_queues]

/-- C12: for every queue id (in particular 0..4), `PMU_IS_SW_COMMAND_QUEUE` holds exactly
for HPQ and LPQ, `PMU_IS_COMMAND_QUEUE` exactly for HPQ, LPQ, BIOS and SMI, and
`PMU_IS_MESSAGE_QUEUE` exactly for MESSAGE; hence every software command queue is a
command queue and no id is both a command and a message queue. Every command posted by the
perfmon INIT, START and STOP functions goes to LPQ, a software command queue. -/
theorem C12_queue_classes (c : perfmon_consts) (env : cmd_env) (g : gk20a) (id : Nat) :
    (PMU_IS_SW_COMMAND_QUEUE id = true ↔
      id = PMU_COMMAND_QUEUE_HPQ ∨ id = PMU_COMMAND_QUEUE_LPQ) ∧
    (PMU_IS_COMMAND_QUEUE id = true ↔
      id = PMU_COMMAND_QUEUE_HPQ ∨ id = PMU_COMMAND_QUEUE_LPQ ∨ id = PMU_COMMAND_QUEUE_BIOS ∨
        id = PMU_COMMAND_QUEUE_SMI) ∧
    (PMU_IS_MESSAGE_QUEUE id = true ↔ id = PMU_MESSAGE_QUEUE) ∧
    (PMU_IS_SW_COMMAND_QUEUE id = true → PMU_IS_COMMAND_QUEUE id = true) ∧
    ¬ (PMU_IS_COMMAND_QUEUE id = true ∧ PMU_IS_MESSAGE_QUEUE id = true) ∧
    PMU_IS_SW_COMMAND_QUEUE PMU_COMMAND_QUEUE_LPQ = true ∧
    (∀ ret g', nvgpu_pmu_init_perfmon c env g = some (ret, g') →
      ∀ q, q ∈ posted_queues (new_actions g g') →
        q = PMU_COMMAND_QUEUE_LPQ ∧ PMU_IS_SW_COMMAND_QUEUE q = true) ∧
    (∀ ret g', nvgpu_pmu_perfmon_start_sampling c env g = some (ret, g') →
      ∀ q, q ∈ posted_queues (new_actions g g') →
        q = PMU_COMMAND_QUEUE_LPQ ∧ PMU_IS_SW_COMMAND_QUEUE q = true) ∧
    (∀ ret g', nvgpu_pmu_perfmon_stop_sampling c env g = some (ret, g') →
      ∀ q, q ∈ posted_queues (new_actions g g') →
        q = PMU_COMMAND_QUEUE_LPQ ∧ PMU_IS_SW_COMMAND_QUEUE q = true) := by
  have hsw : PMU_IS_SW_COMMAND_QUEUE PMU_COMMAND_QUEUE_LPQ = true := by decide
  refine ⟨?_, ?_, ?_, ?_, ?_, hsw, ?_, ?_, ?_⟩
  · simp [PMU_IS_SW_COMMAND_QUEUE]
  · simp only [PMU_IS_COMMAND_QUEUE, PMU_MESSAGE_QUEUE, PMU_COMMAND_QUEUE_HPQ,
      PMU_COMMAND_QUEUE_LPQ, PMU_COMMAND_QUEUE_BIOS, PMU_COMMAND_QUEUE_SMI, decide_eq_true_eq]
    omega
  · simp [PMU_IS_MESSAGE_QUEUE]
  · simp only [PMU_IS_SW_COMMAND_QUEUE, PMU_IS_COMMAND_QUEUE, PMU_MESSAGE_QUEUE,
      PMU_COMMAND_QUEUE_HPQ, PMU_COMMAND_QUEUE_LPQ, Bool.or_eq_true, decide_eq_true_eq]
    omega
  · simp only [PMU_IS_COMMAND_QUEUE, PMU_IS_MESSAGE_QUEUE, PMU_MESSAGE_QUEUE,
      decide_eq_true_eq]
    omega
  · intro ret g' h q hq
    have := init_perfmon_posts_lpq c env g g' ret h q hq
    subst this
    exact ⟨rfl, hsw⟩
  · intro ret g' h q hq
    have := start_sampling_posts_lpq c env g g' ret h q hq
    subst this
    exact ⟨rfl, hsw⟩
  · intro ret g' h q hq
    have := stop_sampling_posts_lpq c env g g' ret h q hq
    subst this
    exact ⟨rfl, hsw⟩

/-- C12 (witness): on the sample GP10B device a successful INIT posts one command, to
queue 1 (LPQ), which is a software command queue. -/
theorem C12_queue_classes_witness :
    ∃ ret g', nvgpu_pmu_init_perfmon sample_consts sample_cmd_env
        (sample_gk20a 0x130 0xB nvgpu_pmu_perfmon.zeroed) = some (ret, g') ∧
      posted_queues (new_actions (sample_gk20a 0x130 0xB nvgpu_pmu_perfmon.zeroed) g') = [1] ∧
      ∀ q, q ∈ posted_queues (new_actions (sample_gk20a 0x130 0xB nvgpu_pmu_perfmon.zeroed) g') →
        q = PMU_COMMAND_QUEUE_LPQ ∧ PMU_IS_SW_COMMAND_QUEUE q = true :=
  ⟨_, _, rfl, by decide,
    (C12_queue_classes sample_consts sample_cmd_env
      (sample_gk20a 0x130 0xB nvgpu_pmu_perfmon.zeroed) 1).2.2.2.2.2.2.1 _ _ rfl⟩

/-- The update `min_t(u32, delay << 1, GR_IDLE_CHECK_MAX)` takes the `k`-th stated delay
to the next one when the default is at most the maximum and the maximum is below `2^31`. -/
theorem backoff_delay_succ (D M k : Nat) (hM : M < 2 ^ 31) :
    min (u32 (backoff_delay D M k <<< 1)) M = backoff_delay D M (k + 1) := by
  have hb : backoff_delay D M k ≤ M := Nat.min_le_right _ _
  have hsh : backoff_delay D M k <<< 1 = 2 * backoff_delay D M k := by
    rw [Nat.shiftLeft_eq]; omega
  have hu : u32 (2 * backoff_delay D M k) = 2 * backoff_delay D M k := by
    unfold u32
    apply Nat.mod_eq_of_lt
    omega
  rw [hsh, hu]
  unfold backoff_delay
  have hp : D * 2 ^ (k + 1) = 2 * (D * 2 ^ k) := by rw [Nat.pow_succ]; ring
  rw [hp]
  simp only [Nat.min_def]
  split_ifs <;> omega

/-- A trace with a single read has no two consecutive reads. -/
theorem one_sleep_single (r : fifo_reg) :
    one_sleep_between_reads [wait_action.nvgpu_readl r] := by
  intro a r1 mid r2 b h _
  have hl := congrArg List.length h
  simp at hl
  omega

/-- A trace made of one read, one sleep and one deadline check has no two consecutive
reads. -/
theorem one_sleep_last_step (r : fifo_reg) (m x : Nat) :
    one_sleep_between_reads [wait_action.nvgpu_readl r, wait_action.nvgpu_usleep_range m x,
      wait_action.nvgpu_timeout_expired] := by
  intro a r1 mid r2 b h _
  have hc := congrArg count_reads h
  simp [count_reads, wait_action.is_readl, List.countP_cons] at hc
  omega

/-- Putting one read, one sleep and one deadline check in front of a trace that starts
with a read keeps exactly one sleep between consecutive reads. -/
theorem one_sleep_step (r r' : fifo_reg) (m x : Nat) (t : List wait_action)
    (ht : one_sleep_between_reads (wait_action.nvgpu_readl r' :: t)) :
    one_sleep_between_reads (wait_action.nvgpu_readl r :: wait_action.nvgpu_usleep_range m x ::
      wait_action.nvgpu_timeout_expired :: wait_action.nvgpu_readl r' :: t) := by
  intro a r1 mid r2 b h hmid
  cases a with
  | nil =>
    simp only [List.nil_append, List.cons.injEq] at h
    obtain ⟨_, h⟩ := h
    cases mid with
    | nil => simp at h
    | cons y mid1 =>
      simp only [List.cons_append, List.cons.injEq] at h
      obtain ⟨hy, h⟩ := h
      cases mid1 with
      | nil => simp at h
      | cons z mid2 =>
        simp only [List.cons_append, List.cons.injEq] at h
        obtain ⟨hz, h⟩ := h
        cases mid2 with
        | nil =>
          subst hy
          subst hz
          simp [count_sleeps, wait_action.is_usleep, List.countP_cons]
        | cons w mid3 =>
          simp only [List.cons_append, List.cons.injEq] at h
          obtain ⟨hw, _⟩ := h
          have hr := hmid w (by simp)
          rw [← hw] at hr
          simp [wait_action.is_readl] at hr
  | cons y a1 =>
    simp only [List.cons_append, List.cons.injEq] at h
    obtain ⟨_, h⟩ := h
    cases a1 with
    | nil => simp at h
    | cons z a2 =>
      simp only [List.cons_append, List.cons.injEq] at h
      obtain ⟨_, h⟩ := h
      cases a2 with
      | nil => simp at h
      | cons w a3 =>
        simp only [List.cons_append, List.cons.injEq] at h
        obtain ⟨_, h⟩ := h
        exact ht a3 r1 mid r2 b h hmid

/-- Shape of a finished run of the polling loop that enters iteration `k` with the `k`-th
stated delay: the trace starts with a read, has exactly one sleep between consecutive
reads, and its sleeps use the stated delays `k, k + 1, ...` in order. -/
theorem wait_loop_shape (hw : hw_fifo_tu104) (D M : Nat) (env : wait_env) (id : Nat)
    (hM : M < 2 ^ 31) :
    ∀ (fuel k : Nat) (ret : Int) (tr : List wait_action),
      tu104_runlist_wait_pending_loop hw M env id fuel k (backoff_delay D M k) = some (ret, tr) →
      (∃ t, tr = wait_action.nvgpu_readl (fifo_reg.fifo_runlist_submit_info_r id) :: t) ∧
      one_sleep_between_reads tr ∧
      sleep_delays tr
        = (List.range (count_sleeps tr)).map (fun i => backoff_delay D M (k + i)) := by
  intro fuel
  induction fuel with
  | zero =>
    intro k ret tr h
    simp [tu104_runlist_wait_pending_loop] at h
  | succ n ih =>
    intro k ret tr h
    unfold tu104_runlist_wait_pending_loop at h
    by_cases hp : env.submit_info k &&& hw.fifo_runlist_submit_info_pending_true_f = 0
    · simp only [hp, if_true] at h
      injection h with h
      injection h with h1 h2
      subst h1; subst h2
      refine ⟨⟨[], rfl⟩, one_sleep_single _, ?_⟩
      simp [sleep_delays, count_sleeps, wait_action.is_usleep]
    · simp only [hp, if_false] at h
      by_cases he : env.timeout_expired k = 0
      · simp only [he, if_true] at h
        rw [backoff_delay_succ D M k hM] at h
        cases hrec : tu104_runlist_wait_pending_loop hw M env id n (k + 1)
            (backoff_delay D M (k + 1)) with
        | none => simp [hrec] at h
        | some r =>
          obtain ⟨ret', rest⟩ := r
          simp only [hrec] at h
          injection h with h
          injection h with h1 h2
          subst h1; subst h2
          obtain ⟨⟨t, ht⟩, hone, hdel⟩ := ih (k + 1) ret' rest hrec
          subst ht
          refine ⟨⟨_, rfl⟩, one_sleep_step _ _ _ _ _ hone, ?_⟩
          have hcount : count_sleeps
              ([wait_action.nvgpu_readl (fifo_reg.fifo_runlist_submit_info_r id),
                wait_action.nvgpu_usleep_range (backoff_delay D M k)
                  (u32 (backoff_delay D M k * 2)),
                wait_action.nvgpu_timeout_expired] ++
                wait_action.nvgpu_readl (fifo_reg.fifo_runlist_submit_info_r id) :: t)
              = count_sleeps
                (wait_action.nvgpu_readl (fifo_reg.fifo_runlist_submit_info_r id) :: t) + 1 := by
            simp [count_sleeps, wait_action.is_usleep, List.countP_cons]
          have hsd : sleep_delays
              ([wait_action.nvgpu_readl (fifo_reg.fifo_runlist_submit_info_r id),
                wait_action.nvgpu_usleep_range (backoff_delay D M k)
                  (u32 (backoff_delay D M k * 2)),
                wait_action.nvgpu_timeout_expired] ++
                wait_action.nvgpu_readl (fifo_reg.fifo_runlist_submit_info_r id) :: t)
              = backoff_delay D M k :: sleep_delays
                (wait_action.nvgpu_readl (fifo_reg.fifo_runlist_submit_info_r id) :: t) := rfl
          rw [hcount, List.range_succ_eq_map, List.map_cons, List.map_map, hsd, hdel]
          congr 1
          apply List.map_congr_left
          intro i _
          simp only [Function.comp]
          congr 1
          omega
      · simp only [he, if_false] at h
        injection h with h
        injection h with h1 h2
        subst h1; subst h2
        refine ⟨⟨_, rfl⟩, one_sleep_last_step _ _ _, ?_⟩
        rfl

/-- A run in which every poll up to `j` sees the bit set and the deadline is first reported
expired after poll `j` ends with `-ETIMEDOUT` after `j + 1` sleeps. -/
theorem wait_loop_times_out (hw : hw_fifo_tu104) (M : Nat) (env : wait_env) (id : Nat)
    (j fuel delay : Nat) (hf : j < fuel) (hpend : ∀ i, i ≤ j → env.pending hw i)
    (hnexp : ∀ i, i < j → env.timeout_expired i = 0) (hexp : env.timeout_expired j ≠ 0) :
    ∃ tr, tu104_runlist_wait_pending_loop hw M env id fuel 0 delay = some (-ETIMEDOUT, tr) ∧
      count_sleeps tr = j + 1 := by
  obtain ⟨⟨ret, tr⟩, hr⟩ := wait_loop_returns hw M env id j fuel 0 delay hf
    (Or.inr (by simpa using hexp))
  obtain ⟨i, _, hi, hcase⟩ := wait_loop_spec hw M env id fuel 0 delay ret tr hr
  simp only [Nat.zero_add] at hi hcase
  have hij : i = j := by
    rcases Nat.lt_trichotomy i j with hlt | heq | hgt
    · rcases hcase with ⟨a, _⟩ | ⟨_, b, _⟩
      · exact absurd (hpend i (Nat.le_of_lt hlt)) a
      · exact absurd (hnexp i hlt) b
    · exact heq
    · exact absurd (hi j hgt).2 hexp
  subst hij
  rcases hcase with ⟨a, _⟩ | ⟨_, _, c, _, e⟩
  · exact absurd (hpend i (Nat.le_refl i)) a
  · subst c
    exact ⟨tr, hr, e⟩

/-- C13: in `tu104_runlist_wait_pending` (with `GR_IDLE_CHECK_DEFAULT ≤ GR_IDLE_CHECK_MAX <
2^31`) every finished run has exactly one sleep between any two consecutive reads of the
pending bit, and its `k`-th sleep (`k = 0, 1, ...`) uses the delay
`min(GR_IDLE_CHECK_DEFAULT * 2^k, GR_IDLE_CHECK_MAX)`, which never exceeds the maximum;
runs with any number of sleeps exist when the pending mask is not zero. -/
theorem C13_backoff_delays (hw : hw_fifo_tu104) (D M id : Nat) (hDM : D ≤ M)
    (hM : M < 2 ^ 31) :
    (∀ (env : wait_env) (fuel : Nat) (ret : Int) (tr : List wait_action),
      tu104_runlist_wait_pending hw D M env id fuel = some (ret, tr) →
      one_sleep_between_reads tr ∧
      sleep_delays tr = (List.range (count_sleeps tr)).map (fun k => min (D * 2 ^ k) M) ∧
      (∀ d, d ∈ sleep_delays tr → d ≤ M)) ∧
    (hw.fifo_runlist_submit_info_pending_true_f ≠ 0 →
      ∀ n, ∃ (env : wait_env) (tr : List wait_action),
        tu104_runlist_wait_pending hw D M env id (n + 1) = some (-ETIMEDOUT, tr) ∧
        count_sleeps tr = n + 1) := by
  have hD0 : backoff_delay D M 0 = D := by
    simp only [backoff_delay, Nat.pow_zero, Nat.mul_one]
    exact Nat.min_eq_left hDM
  refine ⟨?_, ?_⟩
  · intro env fuel ret tr h
    have key : one_sleep_between_reads tr ∧
        sleep_delays tr = (List.range (count_sleeps tr)).map (fun k => min (D * 2 ^ k) M) := by
      unfold tu104_runlist_wait_pending at h
      by_cases hi : env.timeout_init_ret ≠ 0
      · rw [if_pos hi] at h
        injection h with h
        injection h with _ h
        subst h
        refine ⟨?_, rfl⟩
        intro a r1 mid r2 b h _
        simp at h
      · rw [if_neg hi, ← hD0] at h
        obtain ⟨_, hone, hdel⟩ := wait_loop_shape hw D M env id hM fuel 0 ret tr h
        refine ⟨hone, ?_⟩
        rw [hdel]
        apply List.map_congr_left
        intro k _
        simp [backoff_delay]
    refine ⟨key.1, key.2, ?_⟩
    intro d hd
    rw [key.2, List.mem_map] at hd
    obtain ⟨k, _, hk⟩ := hd
    rw [← hk]
    exact Nat.min_le_right _ _
  · intro hmask n
    refine ⟨{ timeout_init_ret := 0,
              submit_info := fun _ => hw.fifo_runlist_submit_info_pending_true_f,
              timeout_expired := fun k => if k < n then 0 else 1 }, ?_⟩
    have hrun := wait_loop_times_out hw M
      { timeout_init_ret := 0,
        submit_info := fun _ => hw.fifo_runlist_submit_info_pending_true_f,
        timeout_expired := fun k => if k < n then 0 else 1 } id n (n + 1) D (Nat.lt_succ_self n)
      (by
        intro i _
        simp only [wait_env.pending, Nat.and_self]
        exact hmask)
      (by
        intro i hi
        simp [hi])
      (by simp)
    obtain ⟨tr, htr, hc⟩ := hrun
    exact ⟨tr, by simpa [tu104_runlist_wait_pending] using htr, hc⟩

/-- C13 (witness): with default 10 and maximum 200, a run whose deadline expires after the
sixth poll sleeps with the delays 10, 20, 40, 80, 160, 200. -/
theorem C13_backoff_delays_witness :
    ∃ ret tr, tu104_runlist_wait_pending sample_hw 10 200 (expires_at 5) 0 8 = some (ret, tr) ∧
      sleep_delays tr = [10, 20, 40, 80, 160, 200] ∧
      one_sleep_between_reads tr ∧
      sleep_delays tr = (List.range (count_sleeps tr)).map (fun k => min (10 * 2 ^ k) 200) ∧
      (∀ d, d ∈ sleep_delays tr → d ≤ 200) ∧
      ∃ (env : wait_env) (tr3 : List wait_action),
        tu104_runlist_wait_pending sample_hw 10 200 env 0 (3 + 1) = some (-ETIMEDOUT, tr3) ∧
        count_sleeps tr3 = 3 + 1 :=
  have h := C13_backoff_delays sample_hw 10 200 0 (by decide) (by decide)
  have h1 := h.1 (expires_at 5) 8 _ _ rfl
  ⟨_, _, rfl, by decide, h1.1, h1.2.1, h1.2.2, h.2 (by decide) 3⟩

/-- The reply handler writes at most `load`, `perfmon_query` and `perfmon_ready`. -/
theorem rpc_handler_frame (ids : perfmon_rpc_ids) (p : nvgpu_pmu_perfmon)
    (function sample0 : Nat) :
    (nvgpu_pmu_perfmon_rpc_handler ids p function sample0).load_avg = p.load_avg ∧
    (nvgpu_pmu_perfmon_rpc_handler ids p function sample0).load_shadow = p.load_shadow ∧
    ((nvgpu_pmu_perfmon_rpc_handler ids p function sample0).load = p.load ∨
      (nvgpu_pmu_perfmon_rpc_handler ids p function sample0).load = sample0) := by
  unfold nvgpu_pmu_perfmon_rpc_handler
  split_ifs <;> simp

/-- The QUERY RPC writes at most `load`, `perfmon_query` and `perfmon_ready`, and a new
`load` is the sample of the reply. -/
theorem get_samples_rpc_frame (ids : perfmon_rpc_ids) (env : load_env)
    (p : nvgpu_pmu_perfmon) :
    (nvgpu_pmu_perfmon_get_samples_rpc ids env p).2.load_avg = p.load_avg ∧
    (nvgpu_pmu_perfmon_get_samples_rpc ids env p).2.load_shadow = p.load_shadow ∧
    ((nvgpu_pmu_perfmon_get_samples_rpc ids env p).2.load = p.load ∨
      ∃ s, env.query_reply = some s ∧
        (nvgpu_pmu_perfmon_get_samples_rpc ids env p).2.load = s) := by
  unfold nvgpu_pmu_perfmon_get_samples_rpc
  by_cases he : env.perfmon_enabled = true
  · cases hq : env.query_reply with
    | none => simp [he]
    | some s =>
      simp only [he, Bool.not_true, Bool.false_eq_true, if_false]
      have hf := rpc_handler_frame ids { p with perfmon_query := 0 } ids.QUERY s
      refine ⟨hf.1, hf.2.1, ?_⟩
      rcases hf.2.2 with h | h
      · exact Or.inl h
      · exact Or.inr ⟨s, rfl, h⟩
  · simp [he]

/-- A call through the HAL slot `pmu_perfmon_start_sampling` that returns leaves the
perfmon state untouched. -/
theorem start_op_perfmon_unchanged (c : perfmon_consts) (env : cmd_env) (g g' : gk20a)
    (ret : Int) (h : pmu_perfmon_start_sampling_op c env g = some (ret, g')) :
    g'.pmu_perfmon = g.pmu_perfmon := by
  unfold pmu_perfmon_start_sampling_op at h
  cases hop : g.start_op with
  | nvgpu_pmu_perfmon_start_sampling =>
    simp only [gk20a.log, hop] at h
    unfold nvgpu_pmu_perfmon_start_sampling at h
    simp only [gk20a.log] at h
    split_ifs at h
    all_goals
      injection h with h
      injection h with _ h
      subst h
      rfl
  | nvgpu_pmu_perfmon_start_sampling_rpc =>
    simp only [gk20a.log, hop] at h
    unfold nvgpu_pmu_perfmon_start_sampling_rpc at h
    simp only [gk20a.log] at h
    split_ifs at h
    all_goals
      injection h with h
      injection h with _ h
      subst h
      rfl

/-- An event that is handled to the end leaves `load`, `load_shadow` and `load_avg` as they
were. -/
theorem handle_event_load_frame (c : perfmon_consts) (env : cmd_env) (g g' : gk20a)
    (msg_type : Nat) (ret : Int)
    (h : nvgpu_pmu_handle_perfmon_event c env g msg_type = some (ret, g')) :
    g'.pmu_perfmon.load = g.pmu_perfmon.load ∧
    g'.pmu_perfmon.load_shadow = g.pmu_perfmon.load_shadow ∧
    g'.pmu_perfmon.load_avg = g.pmu_perfmon.load_avg := by
  unfold nvgpu_pmu_handle_perfmon_event at h
  simp only at h
  split_ifs at h
  all_goals
    first
    | (have hp := start_op_perfmon_unchanged c env _ g' ret h
       rw [hp]
       exact ⟨rfl, rfl, rfl⟩)
    | (injection h with h
       injection h with _ h
       subst h
       exact ⟨rfl, rfl, rfl⟩)

/-- An INIT that returns leaves `load`, `load_shadow` and `load_avg` as they were. -/
theorem init_perfmon_load_frame (c : perfmon_consts) (env : cmd_env) (g g' : gk20a)
    (ret : Int) (h : nvgpu_pmu_init_perfmon c env g = some (ret, g')) :
    g'.pmu_perfmon.load = g.pmu_perfmon.load ∧
    g'.pmu_perfmon.load_shadow = g.pmu_perfmon.load_shadow ∧
    g'.pmu_perfmon.load_avg = g.pmu_perfmon.load_avg := by
  unfold nvgpu_pmu_init_perfmon at h
  simp only [gk20a.log] at h
  by_cases he : g.perfmon_enabled = true
  · by_cases hsb : g.pmu_perfmon.sample_buffer = 0
    · by_cases ha : env.dmem_alloc ≤ U32_MAX
      · simp only [he, hsb, ha, Bool.not_true, Bool.false_eq_true, if_true, if_false] at h
        split_ifs at h
        all_goals
          injection h with h
          injection h with _ h
          subst h
          exact ⟨rfl, rfl, rfl⟩
      · simp [he, hsb, ha] at h
    · simp only [he, hsb, Bool.not_true, Bool.false_eq_true, if_true, if_false] at h
      split_ifs at h
      all_goals
        injection h with h
        injection h with _ h
        subst h
        exact ⟨rfl, rfl, rfl⟩
  · simp only [he, Bool.not_eq_true] at h
    simp at he
    simp only [he, Bool.not_false, if_true] at h
    injection h with h
    injection h with _ h
    subst h
    exact ⟨rfl, rfl, rfl⟩

/-- The averaging step keeps a bounded average bounded: from `avg ≤ 6553` and
`shadow ≤ 6553` the `u32` computation does not wrap and yields at most 6553. -/
theorem u32_avg_le (avg shadow : Nat) (ha : avg ≤ 6553) (hs : shadow ≤ 6553) :
    u32 (u32 (9 * avg) + shadow) / 10 ≤ 6553 := by
  rw [u32_avg_exact avg shadow (by omega)]
  omega

/-- The load update preserves the bound on the load fields when the reply sample fits 16
bits. -/
theorem load_update_inv (ids : perfmon_rpc_ids) (env : load_env) (p : nvgpu_pmu_perfmon)
    (hs : ∀ s, env.query_reply = some s → s < 2 ^ 16) (hp : load_inv p) :
    load_inv (nvgpu_pmu_load_update ids env p).2 := by
  obtain ⟨h1, h2, h3⟩ := hp
  unfold nvgpu_pmu_load_update
  by_cases hr : p.perfmon_ready = true
  · by_cases hg : env.has_get_samples_rpc = true
    · simp only [hr, hg, Bool.not_true, Bool.false_eq_true, if_false, if_true]
      obtain ⟨f1, _, f3⟩ := get_samples_rpc_frame ids env p
      have hl : (nvgpu_pmu_perfmon_get_samples_rpc ids env p).2.load < 2 ^ 16 := by
        rcases f3 with h | ⟨s, hq, h⟩
        · rw [h]; exact h1
        · rw [h]; exact hs s hq
      refine ⟨hl, ?_, ?_⟩
      · show (nvgpu_pmu_perfmon_get_samples_rpc ids env p).2.load / 10 ≤ 6553
        omega
      · show u32 (u32 (9 * (nvgpu_pmu_perfmon_get_samples_rpc ids env p).2.load_avg) +
            (nvgpu_pmu_perfmon_get_samples_rpc ids env p).2.load / 10) / 10 ≤ 6553
        rw [f1]
        exact u32_avg_le _ _ h3 (by omega)
    · by_cases hd : env.dmem_err ≠ 0
      · simp only [hr, hg, Bool.not_true, Bool.false_eq_true, if_false]
        rw [if_pos hd]
        exact ⟨h1, h2, h3⟩
      · simp only [hr, hg, Bool.not_true, Bool.false_eq_true, if_false]
        rw [if_neg hd]
        have hw : env.dmem_word % 2 ^ 16 / 10 ≤ 6553 := by omega
        exact ⟨h1, hw, u32_avg_le _ _ h3 hw⟩
  · have hr' : p.perfmon_ready = false := by simpa using hr
    simp only [hr', Bool.not_false, if_true]
    exact ⟨Nat.two_pow_pos 16, Nat.zero_le _, h3⟩

/-- Every reachable perfmon state satisfies the bound on the load fields. -/
theorem reachable_inv (c : perfmon_consts) (p : nvgpu_pmu_perfmon) (h : reachable c p) :
    load_inv p := by
  induction h with
  | zeroed => decide
  | rpc_handler p function sample0 _ hs ih =>
    obtain ⟨h1, h2, h3⟩ := ih
    obtain ⟨f1, f2, f3⟩ := rpc_handler_frame c.rpc p function sample0
    refine ⟨?_, by rw [f2]; exact h2, by rw [f1]; exact h3⟩
    rcases f3 with h | h
    · rw [h]; exact h1
    · rw [h]; exact hs
  | get_samples_rpc p env _ hs ih =>
    obtain ⟨h1, h2, h3⟩ := ih
    obtain ⟨f1, f2, f3⟩ := get_samples_rpc_frame c.rpc env p
    refine ⟨?_, by rw [f2]; exact h2, by rw [f1]; exact h3⟩
    rcases f3 with h | ⟨s, hq, h⟩
    · rw [h]; exact h1
    · rw [h]; exact hs s hq
  | load_update p env _ hs ih => exact load_update_inv c.rpc env p hs ih
  | handle_perfmon_event g g' env msg_type ret _ hrun ih =>
    obtain ⟨f1, f2, f3⟩ := handle_event_load_frame c env g g' msg_type ret hrun
    unfold load_inv at ih ⊢
    rw [f1, f2, f3]
    exact ih
  | init_perfmon g g' env ret _ hrun ih =>
    obtain ⟨f1, f2, f3⟩ := init_perfmon_load_frame c env g g' ret hrun
    unfold load_inv at ih ⊢
    rw [f1, f2, f3]
    exact ih
  | init_perfmon_rpc g env _ ih =>
    unfold nvgpu_pmu_init_perfmon_rpc
    split_ifs <;> exact ih
  | set_sampling_enable_status p status _ ih => exact ih

/-- C1: for every ready device and every prior average `avg` the driver can hold (every
state reachable from the zero-initialised one with 16-bit samples, so also `avg = 0`),
`nvgpu_pmu_load_update` returns 0 and sets `load_shadow = raw / 10` and
`load_avg' = (9 * avg + load_shadow) / 10` with truncating integer division, where `raw` is
the sample delivered by the QUERY reply (`sample_buffer[0]`) or read from DMEM; in
particular a sample of 450 gives `load_shadow = 45` and `load_avg' = (9 * avg + 45) / 10`. -/
theorem C1_load_update_ready (c : perfmon_consts) (env : load_env) (p : nvgpu_pmu_perfmon)
    (raw : Nat) (hids : c.rpc.distinct) (hreach : reachable c p)
    (hready : p.perfmon_ready = true) (hraw : raw < 2 ^ 16)
    (hfetch : (env.has_get_samples_rpc = true ∧ env.perfmon_enabled = true ∧
        env.query_reply = some raw) ∨
      (env.has_get_samples_rpc = false ∧ env.dmem_err = 0 ∧ env.dmem_word % 2 ^ 16 = raw)) :
    (nvgpu_pmu_load_update c.rpc env p).1 = 0 ∧
    (nvgpu_pmu_load_update c.rpc env p).2.load_shadow = raw / 10 ∧
    (nvgpu_pmu_load_update c.rpc env p).2.load_avg = (9 * p.load_avg + raw / 10) / 10 ∧
    (raw = 450 →
      (nvgpu_pmu_load_update c.rpc env p).2.load_shadow = 45 ∧
      (nvgpu_pmu_load_update c.rpc env p).2.load_avg = (9 * p.load_avg + 45) / 10) := by
  obtain ⟨_, _, havg⟩ := reachable_inv c p hreach
  obtain ⟨h1, h2, _, h4⟩ := load_update_ready_mod c.rpc env p raw hids hready hfetch
  have h3 := h4 (by omega)
  refine ⟨h1, h2, h3, ?_⟩
  intro h450
  subst h450
  exact ⟨h2, h3⟩

/-- C1 (witness): on the state reached by the INIT reply (ready, average 0) a QUERY reply
of 450 gives `load_shadow = 45` and `load_avg = (9 * 0 + 45) / 10 = 4`. -/
theorem C1_load_update_ready_witness :
    (nvgpu_pmu_load_update sample_consts.rpc (rpc_reply_env 450)
      (nvgpu_pmu_perfmon_rpc_handler sample_consts.rpc nvgpu_pmu_perfmon.zeroed 0 0)).1 = 0 ∧
    (nvgpu_pmu_load_update sample_consts.rpc (rpc_reply_env 450)
      (nvgpu_pmu_perfmon_rpc_handler sample_consts.rpc nvgpu_pmu_perfmon.zeroed 0 0)).2.load_shadow
      = 45 ∧
    (nvgpu_pmu_load_update sample_consts.rpc (rpc_reply_env 450)
      (nvgpu_pmu_perfmon_rpc_handler sample_consts.rpc nvgpu_pmu_perfmon.zeroed 0 0)).2.load_avg
      = (9 * (nvgpu_pmu_perfmon_rpc_handler sample_consts.rpc
          nvgpu_pmu_perfmon.zeroed 0 0).load_avg + 45) / 10 ∧
    (nvgpu_pmu_load_update sample_consts.rpc (rpc_reply_env 450)
      (nvgpu_pmu_perfmon_rpc_handler sample_consts.rpc nvgpu_pmu_perfmon.zeroed 0 0)).2.load_avg
      = 4 :=
  have h := C1_load_update_ready sample_consts (rpc_reply_env 450)
    (nvgpu_pmu_perfmon_rpc_handler sample_consts.rpc nvgpu_pmu_perfmon.zeroed 0 0) 450
    (by decide) (reachable.rpc_handler _ 0 0 reachable.zeroed (by decide)) (by decide)
    (by decide) (Or.inl ⟨rfl, rfl, rfl⟩)
  ⟨h.1, (h.2.2.2 rfl).1, (h.2.2.2 rfl).2, by decide⟩

/-- C16: one averaging step of `nvgpu_pmu_load_update` moves the average towards the sample
and never past it: whenever `9 * avg + shadow` does not overflow 32 bits,
`min(avg, shadow) ≤ avg' ≤ max(avg, shadow)`. Consequently, on every state reachable from
the zero-initialised one with 16-bit raw samples, `load_avg ≤ 6553` and neither the 32-bit
product `9 * load_avg` nor the sum of the next averaging step overflows. -/
theorem C16_average_bounded (c : perfmon_consts) (env : load_env) (p : nvgpu_pmu_perfmon) :
    (9 * p.load_avg + (nvgpu_pmu_load_update c.rpc env p).2.load_shadow < 2 ^ 32 →
      min p.load_avg (nvgpu_pmu_load_update c.rpc env p).2.load_shadow
        ≤ (nvgpu_pmu_load_update c.rpc env p).2.load_avg ∧
      (nvgpu_pmu_load_update c.rpc env p).2.load_avg
        ≤ max p.load_avg (nvgpu_pmu_load_update c.rpc env p).2.load_shadow) ∧
    (reachable c p →
      p.load_avg ≤ 6553 ∧ 9 * p.load_avg < 2 ^ 32 ∧
      ((∀ s, env.query_reply = some s → s < 2 ^ 16) →
        9 * p.load_avg + (nvgpu_pmu_load_update c.rpc env p).2.load_shadow < 2 ^ 32)) := by
  refine ⟨?_, ?_⟩
  · unfold nvgpu_pmu_load_update
    by_cases hr : p.perfmon_ready = true
    · by_cases hg : env.has_get_samples_rpc = true
      · simp only [hr, hg, Bool.not_true, Bool.false_eq_true, if_false, if_true]
        obtain ⟨f1, _, _⟩ := get_samples_rpc_frame c.rpc env p
        intro hov
        show min p.load_avg ((nvgpu_pmu_perfmon_get_samples_rpc c.rpc env p).2.load / 10)
            ≤ u32 (u32 (9 * (nvgpu_pmu_perfmon_get_samples_rpc c.rpc env p).2.load_avg) +
              (nvgpu_pmu_perfmon_get_samples_rpc c.rpc env p).2.load / 10) / 10 ∧
          u32 (u32 (9 * (nvgpu_pmu_perfmon_get_samples_rpc c.rpc env p).2.load_avg) +
              (nvgpu_pmu_perfmon_get_samples_rpc c.rpc env p).2.load / 10) / 10
            ≤ max p.load_avg ((nvgpu_pmu_perfmon_get_samples_rpc c.rpc env p).2.load / 10)
        have hov2 : 9 * p.load_avg +
            (nvgpu_pmu_perfmon_get_samples_rpc c.rpc env p).2.load / 10 < 2 ^ 32 := hov
        rw [f1, u32_avg_exact _ _ hov2]
        omega
      · by_cases hd : env.dmem_err ≠ 0
        · simp only [hr, hg, Bool.not_true, Bool.false_eq_true, if_false]
          rw [if_pos hd]
          intro _
          show min p.load_avg p.load_shadow ≤ p.load_avg ∧
            p.load_avg ≤ max p.load_avg p.load_shadow
          omega
        · simp only [hr, hg, Bool.not_true, Bool.false_eq_true, if_false]
          rw [if_neg hd]
          intro hov
          have hov2 : 9 * p.load_avg + env.dmem_word % 2 ^ 16 / 10 < 2 ^ 32 := hov
          show min p.load_avg (env.dmem_word % 2 ^ 16 / 10)
              ≤ u32 (u32 (9 * p.load_avg) + env.dmem_word % 2 ^ 16 / 10) / 10 ∧
            u32 (u32 (9 * p.load_avg) + env.dmem_word % 2 ^ 16 / 10) / 10
              ≤ max p.load_avg (env.dmem_word % 2 ^ 16 / 10)
          rw [u32_avg_exact _ _ hov2]
          omega
    · have hr' : p.perfmon_ready = false := by simpa using hr
      simp only [hr', Bool.not_false, if_true]
      intro _
      show min p.load_avg 0 ≤ p.load_avg ∧ p.load_avg ≤ max p.load_avg 0
      omega
  · intro hreach
    have hinv := reachable_inv c p hreach
    obtain ⟨_, _, h3⟩ := hinv
    refine ⟨h3, by omega, ?_⟩
    intro hs
    obtain ⟨_, h2', _⟩ := load_update_inv c.rpc env p hs (reachable_inv c p hreach)
    omega

/-- C16 (witness): on the state reached by the INIT reply (ready, average 0) an update
with a sample of 450 gives shadow 45 and average 4, between 0 and 45; the state is
reachable, so its average is at most 6553 and the step does not overflow. -/
theorem C16_average_bounded_witness :
    (min (nvgpu_pmu_perfmon_rpc_handler sample_consts.rpc nvgpu_pmu_perfmon.zeroed 0 0).load_avg
        (nvgpu_pmu_load_update sample_consts.rpc (rpc_reply_env 450)
          (nvgpu_pmu_perfmon_rpc_handler sample_consts.rpc nvgpu_pmu_perfmon.zeroed 0 0)).2.load_shadow
      ≤ (nvgpu_pmu_load_update sample_consts.rpc (rpc_reply_env 450)
          (nvgpu_pmu_perfmon_rpc_handler sample_consts.rpc nvgpu_pmu_perfmon.zeroed 0 0)).2.load_avg ∧
     (nvgpu_pmu_load_update sample_consts.rpc (rpc_reply_env 450)
          (nvgpu_pmu_perfmon_rpc_handler sample_consts.rpc nvgpu_pmu_perfmon.zeroed 0 0)).2.load_avg
      ≤ max (nvgpu_pmu_perfmon_rpc_handler sample_consts.rpc nvgpu_pmu_perfmon.zeroed 0 0).load_avg
        (nvgpu_pmu_load_update sample_consts.rpc (rpc_reply_env 450)
          (nvgpu_pmu_perfmon_rpc_handler sample_consts.rpc nvgpu_pmu_perfmon.zeroed 0 0)).2.load_shadow) ∧
    (nvgpu_pmu_load_update sample_consts.rpc (rpc_reply_env 450)
      (nvgpu_pmu_perfmon_rpc_handler sample_consts.rpc nvgpu_pmu_perfmon.zeroed 0 0)).2.load_avg
      = 4 ∧
    (nvgpu_pmu_perfmon_rpc_handler sample_consts.rpc nvgpu_pmu_perfmon.zeroed 0 0).load_avg
      ≤ 6553 ∧
    9 * (nvgpu_pmu_perfmon_rpc_handler sample_consts.rpc nvgpu_pmu_perfmon.zeroed 0 0).load_avg
      < 2 ^ 32 ∧
    9 * (nvgpu_pmu_perfmon_rpc_handler sample_consts.rpc nvgpu_pmu_perfmon.zeroed 0 0).load_avg +
      (nvgpu_pmu_load_update sample_consts.rpc (rpc_reply_env 450)
        (nvgpu_pmu_perfmon_rpc_handler sample_consts.rpc nvgpu_pmu_perfmon.zeroed 0 0)).2.load_shadow
      < 2 ^ 32 :=
  have h := C16_average_bounded sample_consts (rpc_reply_env 450)
    (nvgpu_pmu_perfmon_rpc_handler sample_consts.rpc nvgpu_pmu_perfmon.zeroed 0 0)
  have h2 := h.2 (reachable.rpc_handler _ 0 0 reachable.zeroed (by decide))
  ⟨h.1 (by decide), by decide, h2.1, h2.2.1,
    h2.2.2 (by intro s hs; cases hs; decide)⟩

end Nvgpu
